import Mathlib

/-!
Verification of the schegen repository core against its specification.

The development shallowly embeds the JavaScript source:

* a JSON value model (`JVal`) for the dynamic objects the code manipulates;
* the persistence layer of src/services/databaseClient.js (PHP
  serialization, RankMath format conversion, preview / insert / backup /
  rollback / delete over a modelled WordPress postmeta store);
* the page-type classifier of src/services/pageTypeDetector.js;
* the per-type schema builders (service, localBusiness, faq, article);
* the AI post-processing pass of src/services/ai/schemaGenerator.js.

Regular expressions from the source are transcribed into an explicit
regex AST (`Rx`) with a total, fuel-bounded matching function; JavaScript
string operations (includes, trim, split, toLowerCase, substring) are
modelled by executable Lean counterparts.  JavaScript truthiness is made
explicit (`JVal.truthy`, and the convention that an absent string field
is the empty string).
-/

set_option maxHeartbeats 1000000

/-- Model of a JavaScript / JSON value.  Objects are ordered association
lists, mirroring JavaScript insertion-ordered object keys.  Numbers that
occur in the modelled code paths are integers. -/
inductive JVal where
  | s (v : String)
  | i (v : Int)
  | b (v : Bool)
  | null
  | arr (xs : List JVal)
  | obj (fields : List (String × JVal))
deriving Repr, BEq

/-- JavaScript truthiness of a value: null, false, 0 and the empty
string are falsy; arrays and objects are always truthy. -/
def JVal.truthy : JVal → Bool
  | .s v => v ≠ ""
  | .i v => v ≠ 0
  | .b v => v
  | .null => false
  | .arr _ => true
  | .obj _ => true

/-- Property read obj[k]: the first binding of the key on an object,
none (JavaScript undefined) on any other value. -/
def JVal.getField : JVal → String → Option JVal
  | .obj fields, k => (fields.find? (fun kv => kv.1 == k)).map Prod.snd
  | _, _ => none

/-- Property read as a value, with undefined collapsed to null (both are
falsy, which is the only way the modelled code observes them). -/
def JVal.getD (v : JVal) (k : String) : JVal :=
  (v.getField k).getD .null

/-- Property write obj[k] = x: replaces the first binding of the key in
place (JavaScript keeps the original key position) or appends a new
binding.  On a non-object this is the identity: the modelled modules run
in sloppy mode, where a property write on a primitive is silently
discarded. -/
def JVal.setField : JVal → String → JVal → JVal
  | .obj fields, k, x => .obj (setFieldList fields k x)
  | v, _, _ => v
where
  setFieldList : List (String × JVal) → String → JVal → List (String × JVal)
  | [], k, x => [(k, x)]
  | kv :: rest, k, x =>
    if kv.1 == k then (k, x) :: rest else kv :: setFieldList rest k x

/-- Keys of an object (Object.keys); empty on non-objects. -/
def JVal.keysLength : JVal → Nat
  | .obj fields => fields.length
  | _ => 0

/-- Every suffix of a list, longest first, ending with the empty list. -/
def listTails : List Char → List (List Char)
  | [] => [[]]
  | c :: t => (c :: t) :: listTails t

/-- SQL LIKE matching as MySQL interprets the patterns of
databaseClient.js: percent matches any sequence, underscore matches any
single character, every other pattern character matches itself. -/
def likeMatch : List Char → List Char → Bool
  | [], s => s.isEmpty
  | '%' :: ps, s => (listTails s).any (likeMatch ps)
  | '_' :: ps, s =>
    match s with
    | [] => false
    | _ :: t => likeMatch ps t
  | p :: ps, s =>
    match s with
    | [] => false
    | c :: t => p == c && likeMatch ps t

/-- String-level wrapper for LIKE matching. -/
def likeMatchS (pattern s : String) : Bool :=
  likeMatch pattern.toList s.toList

theorem likeMatch_percent (s : List Char) : likeMatch ['%'] s = true := by
  induction s with
  | nil => rfl
  | cons c t ih =>
    show ((c :: t) :: listTails t).any (likeMatch []) = true
    simp only [List.any_cons, Bool.or_eq_true]
    right
    exact ih

/-- JavaScript String.prototype.startsWith, modelled on character
lists. -/
def jsStartsWith (s pre : String) : Bool :=
  pre.toList.isPrefixOf s.toList

/-- Strings starting with the literal meta-key namespace satisfy the
LIKE pattern used by the rollback DELETE statement. -/
theorem likeMatch_schema_of_startsWith (s : String)
    (h : jsStartsWith s "rank_math_schema_" = true) :
    likeMatchS "rank_math_schema_%" s = true := by
  unfold jsStartsWith at h
  rw [List.isPrefixOf_iff_prefix] at h
  obtain ⟨t, ht⟩ := h
  unfold likeMatchS
  rw [← ht]
  show likeMatch ('r' :: 'a' :: 'n' :: 'k' :: '_' :: 'm' :: 'a' :: 't' ::
    'h' :: '_' :: 's' :: 'c' :: 'h' :: 'e' :: 'm' :: 'a' :: '_' :: '%' :: [])
    ("rank_math_schema_".toList ++ t) = true
  show likeMatch ['%'] t = true
  exact likeMatch_percent t

/-- Strings starting with the literal meta-key namespace also satisfy
the broader LIKE pattern used by getExistingSchemas. -/
theorem likeMatch_rankmath_of_startsWith (s : String)
    (h : jsStartsWith s "rank_math_schema_" = true) :
    likeMatchS "rank_math%" s = true := by
  unfold jsStartsWith at h
  rw [List.isPrefixOf_iff_prefix] at h
  obtain ⟨t, ht⟩ := h
  unfold likeMatchS
  rw [← ht]
  show likeMatch ('r' :: 'a' :: 'n' :: 'k' :: '_' :: 'm' :: 'a' :: 't' ::
    'h' :: '%' :: []) ("rank_math_schema_".toList ++ t) = true
  show likeMatch ['%'] ('s' :: 'c' :: 'h' :: 'e' :: 'm' :: 'a' :: '_' :: [] ++ t) = true
  exact likeMatch_percent _

/-- Serialization of an integer in PHP serialize() notation. -/
def phpSerializeInt (v : Int) : String :=
  "i:" ++ toString v ++ ";"

/-- Serialization of a string in PHP serialize() notation,
length-prefixed by its UTF-8 byte count. -/
def phpSerializeStr (v : String) : String :=
  "s:" ++ toString v.utf8ByteSize ++ ":\"" ++ v ++ "\";"

mutual

/-- PHP serialize() as implemented by phpSerialize in
databaseClient.js.  Arrays serialize index/value pairs (the integer
index is serialized exactly as phpSerialize does for a number); objects
serialize key/value pairs. -/
def phpSerialize : JVal → String
  | .null => "N;"
  | .b v => "b:" ++ (if v then "1" else "0") ++ ";"
  | .i v => phpSerializeInt v
  | .s v => phpSerializeStr v
  | .arr xs =>
    "a:" ++ toString xs.length ++ ":\x7b" ++ phpSerializeItems 0 xs ++ "\x7d"
  | .obj fields =>
    "a:" ++ toString fields.length ++ ":\x7b" ++ phpSerializeFields fields ++ "\x7d"

/-- Serialization of consecutive array items with their indices. -/
def phpSerializeItems : Nat → List JVal → String
  | _, [] => ""
  | idx, x :: rest =>
    phpSerializeInt idx ++ phpSerialize x ++ phpSerializeItems (idx + 1) rest

/-- Serialization of object key/value pairs in insertion order. -/
def phpSerializeFields : List (String × JVal) → String
  | [] => ""
  | (k, v) :: rest =>
    phpSerializeStr k ++ phpSerialize v ++ phpSerializeFields rest

end

/-- Supported RankMath schema types from databaseClient.js, as a list of
(type name, canBePrimary) in source order. -/
def SCHEMA_TYPES : List (String × Bool) :=
  [("Service", true), ("LocalBusiness", true), ("Organization", true),
   ("Article", true), ("NewsArticle", true), ("BlogPosting", true),
   ("FAQPage", false), ("HowTo", true),
   ("Product", true), ("Offer", false),
   ("Event", true), ("Person", true),
   ("Review", false), ("AggregateRating", false),
   ("Recipe", true), ("VideoObject", true), ("Course", true),
   ("JobPosting", true), ("SoftwareApplication", true), ("Book", true),
   ("Place", false), ("BreadcrumbList", false), ("WebPage", false),
   ("Custom", true)]

/-- Lookup of a type name in SCHEMA_TYPES. -/
def schemaTypeLookup (t : String) : Option Bool :=
  (SCHEMA_TYPES.find? (fun kv => kv.1 == t)).map Prod.snd

/-- Coercion of a @type element to the string key the JavaScript code
uses it as (string values are used directly, numbers are coerced by
JavaScript property lookup; other shapes do not occur in practice). -/
def JVal.asTypeKey : JVal → String
  | .s v => v
  | .i v => toString v
  | _ => ""

/-- Schema type extraction from a JSON-LD object, following
extractSchemaType in databaseClient.js: falsy schemas and missing or
falsy @type give Custom; an array @type prefers the first element known
to SCHEMA_TYPES and otherwise falls back to the first element. -/
def extractSchemaType (schema : JVal) : String :=
  if !schema.truthy then "Custom"
  else
    let t := schema.getD "@type"
    if !t.truthy then "Custom"
    else
      match t with
      | .arr elems =>
        match elems.find? (fun e => (schemaTypeLookup e.asTypeKey).isSome) with
        | some e => e.asTypeKey
        | none => (elems.headD .null).asTypeKey
      | other => other.asTypeKey

/-- JavaScript object spread \x7bfirst, ...second\x7d: keys of the first
object in order (values overridden by the second object when it also has
the key), then the keys only in the second object in its order. -/
def spreadMerge (first second : List (String × JVal)) : List (String × JVal) :=
  (first.map (fun kv =>
    match second.find? (fun kv2 => kv2.1 == kv.1) with
    | some kv2 => (kv.1, kv2.2)
    | none => kv)) ++
  second.filter (fun kv2 => !(first.any (fun kv => kv.1 == kv2.1)))

/-- Drop a key from an object field list (the delete operator applied to
the copied schema). -/
def deleteKey (fields : List (String × JVal)) (k : String) : List (String × JVal) :=
  fields.filter (fun kv => kv.1 != k)

/-- Conversion of a JSON-LD schema to RankMath internal format,
following convertToRankMathFormat in databaseClient.js.  The generated
shortcode id (Math.random in the source) is threaded in as an explicit
argument.  Primary metadata is only emitted when the type is known to be
primary-capable. -/
def convertToRankMathFormat (schema : JVal) (schemaType : String)
    (isPrimary : Bool) (shortcodeId : String) : JVal :=
  let typeConfig : String × Bool :=
    match SCHEMA_TYPES.find? (fun kv => kv.1 == schemaType) with
    | some kv => kv
    | none => ("Custom", true)
  let metadata : JVal :=
    if isPrimary && typeConfig.2 then
      .obj [("title", .s typeConfig.1), ("type", .s "custom"),
            ("shortcode", .s ("s-" ++ shortcodeId)), ("isPrimary", .s "1"),
            ("name", .s "%seo_title%"), ("description", .s "%seo_description%"),
            ("reviewLocationShortcode", .s "[rank_math_rich_snippet]")]
    else
      .obj [("type", .s "custom"), ("title", .s typeConfig.1)]
  let schemaFields : List (String × JVal) :=
    match schema with
    | .obj fields => deleteKey fields "@context"
    | _ => []
  .obj (spreadMerge [("metadata", metadata)] schemaFields)

/-- Stored metadata carries the primary marker exactly when the schema
was converted as primary and its type admits it. -/
def rankMathIsPrimary (v : JVal) : Bool :=
  match (v.getD "metadata").getField "isPrimary" with
  | some m => m.truthy
  | none => false

/-- Row of the modelled wp_postmeta table. -/
structure MetaRow where
  metaId : Nat
  postId : Nat
  key : String
  value : String
deriving Repr, BEq

/-- Snapshot row as produced by getExistingSchemas. -/
structure BackupRow where
  metaId : Nat
  key : String
  value : String
deriving Repr, BEq

/-- Backup entry: a timestamp (modelled as a monotone counter standing
for new Date().toISOString()) and the captured rows. -/
structure BackupEntry where
  timestamp : Nat
  schemas : List BackupRow
deriving Repr, BEq

/-- State of the modelled WordPress database together with the client's
in-memory backup map and the file-persisted backup store
(data/backups.json for one host:database key). -/
structure DBState where
  posts : List Nat
  rows : List MetaRow
  nextMetaId : Nat
  memBackups : List (Nat × BackupEntry)
  fileBackups : List (Nat × BackupEntry)
  now : Nat
  rng : Nat
deriving Repr

/-- Options record accepted by the destructive operations; a field is
none when the caller did not pass it, so the JavaScript destructuring
defaults apply. -/
structure DbOpts where
  dryRun : Option Bool := none
  backup : Option Bool := none
  isPrimary : Option Bool := none
  primaryType : Option String := none
deriving Repr

/-- Association list update used for the Map.set of the backup map. -/
def assocSet (m : List (Nat × BackupEntry)) (k : Nat) (v : BackupEntry) :
    List (Nat × BackupEntry) :=
  match m with
  | [] => [(k, v)]
  | kv :: rest => if kv.1 == k then (k, v) :: rest else kv :: assocSet rest k v

/-- JavaScript short-circuit or between an optional / possibly-empty
string argument and a computed default (the pattern
schemaType || extractSchemaType(schema)). -/
def strOr (a : Option String) (b : String) : String :=
  match a with
  | some v => if v == "" then b else v
  | none => b

/-- Result of previewInsertion (the fields the verified operations
observe). -/
structure PreviewResult where
  success : Bool
  action : String
  existingMetaId : Option Nat
  metaKey : String
  err : Option String
deriving Repr, BEq

/-- Result of one insertSchema call. -/
structure InsertResult where
  success : Bool
  dryRun : Bool
  action : String
  metaKey : String
  err : Option String
  canRollback : Bool
deriving Repr, BEq

/-- Rows returned by getExistingSchemas: all meta for the post whose key
matches LIKE rank_math%. -/
def getExistingSchemas (pid : Nat) (st : DBState) : List BackupRow :=
  (st.rows.filter (fun r => r.postId == pid && likeMatchS "rank_math%" r.key)).map
    (fun r => ⟨r.metaId, r.key, r.value⟩)

/-- MAX_BACKUPS from databaseClient.js. -/
def MAX_BACKUPS : Nat := 50

/-- Persist the in-memory backup map into the backups file, merging
entry by entry and pruning to MAX_BACKUPS newest entries per storage
key (saveBackupsToFile). -/
def saveBackupsToFile (st : DBState) : DBState :=
  let merged := st.memBackups.foldl (fun fb kv => assocSet fb kv.1 kv.2) st.fileBackups
  let pruned :=
    if merged.length > MAX_BACKUPS then
      (merged.mergeSort (fun a b => b.2.timestamp ≤ a.2.timestamp)).take MAX_BACKUPS
    else merged
  { st with fileBackups := pruned }

/-- Snapshot every rank_math meta row of the post into the in-memory
backup map and persist the map to file (backupMeta). -/
def backupMeta (pid : Nat) (st : DBState) : DBState :=
  let existing := getExistingSchemas pid st
  let entry : BackupEntry := ⟨st.now, existing⟩
  let st1 := { st with memBackups := assocSet st.memBackups pid entry, now := st.now + 1 }
  saveBackupsToFile st1

/-- Read-only dry-run lookup of what inserting a schema would do
(previewInsertion). -/
def previewInsertion (pid : Nat) (schema : JVal) (schemaType : Option String)
    (st : DBState) : PreviewResult :=
  if !(st.posts.contains pid) then
    ⟨false, "", none, "", some ("Post ID " ++ toString pid ++ " not found")⟩
  else
    let detectedType := strOr schemaType (extractSchemaType schema)
    let metaKey := "rank_math_schema_" ++ detectedType
    match st.rows.filter (fun r => r.postId == pid && r.key == metaKey) with
    | [] => ⟨true, "INSERT", none, metaKey, none⟩
    | r :: _ => ⟨true, "UPDATE", some r.metaId, metaKey, none⟩

/-- Committed or dry-run insertion of one schema (insertSchema).
JavaScript destructuring defaults dryRun = true, backup = true,
isPrimary = false apply when the caller omitted the option.  The
Math.random shortcode id is modelled by the rng counter in the state. -/
def insertSchema (pid : Nat) (schema : JVal) (schemaType : Option String)
    (opts : DbOpts) (st : DBState) : DBState × InsertResult :=
  let dryRun := opts.dryRun.getD true
  let backup := opts.backup.getD true
  let isPrimary := opts.isPrimary.getD false
  let detectedType := strOr schemaType (extractSchemaType schema)
  let preview := previewInsertion pid schema (some detectedType) st
  if !preview.success then
    (st, ⟨false, false, "", "", preview.err, false⟩)
  else if dryRun then
    (st, ⟨true, true, preview.action, preview.metaKey, none, false⟩)
  else
    let metaKey := "rank_math_schema_" ++ detectedType
    let rankMathSchema := convertToRankMathFormat schema detectedType isPrimary (toString st.rng)
    let metaValue := phpSerialize rankMathSchema
    let st1 := { st with rng := st.rng + 1 }
    let st2 := if backup then backupMeta pid st1 else st1
    if preview.action == "UPDATE" then
      let rows := st2.rows.map (fun r =>
        if r.postId == pid && r.key == metaKey then { r with value := metaValue } else r)
      ({ st2 with rows := rows },
       ⟨true, false, "UPDATE", metaKey, none, backup⟩)
    else
      ({ st2 with
          rows := st2.rows ++ [⟨st2.nextMetaId, pid, metaKey, metaValue⟩],
          nextMetaId := st2.nextMetaId + 1 },
       ⟨true, false, "INSERT", metaKey, none, backup⟩)

/-- Argument triples (schema, type, isPrimary) of the insertSchema calls
issued by the insertMultipleSchemas loop: isPrimary is i === 0, so the
first schema in the array is passed isPrimary = true and every other one
isPrimary = false. -/
def insertMultipleCalls : List (JVal × String) → List (JVal × String × Bool)
  | [] => []
  | x :: rest => (x.1, x.2, true) :: rest.map (fun y => (y.1, y.2, false))

/-- Insert several schemas in one operation (insertMultipleSchemas):
backup once when committing, then insert each schema with backup
disabled, the first one as primary. -/
def insertMultipleSchemas (pid : Nat) (schemas : List (JVal × String))
    (opts : DbOpts) (st : DBState) : DBState × (Bool × List InsertResult × Bool) :=
  let dryRun := opts.dryRun.getD true
  let backup := opts.backup.getD true
  let st0 := if backup && !dryRun then backupMeta pid st else st
  let step := (insertMultipleCalls schemas).foldl
    (fun (acc : DBState × List InsertResult) call =>
      let r := insertSchema pid call.1 (some call.2.1)
        { dryRun := some dryRun, backup := some false, isPrimary := some call.2.2 } acc.1
      (r.1, acc.2 ++ [r.2]))
    (st0, [])
  (step.1, (step.2.all (fun r => r.success), step.2, backup && !dryRun))

/-- Reference-only schema.org types that insertFromGraph skips when the
entity has three or fewer keys. -/
def referenceOnlyTypes : List String := ["WebSite", "Organization", "Place", "ImageObject"]

/-- Preferred primary types of insertFromGraph when no primaryType
option is given (the source condition
type === Service || type === Article || type === Product). -/
def isPreferredPrimaryType (t : String) : Bool :=
  t == "Service" || t == "Article" || t == "Product"

/-- Body of the graph-splitting forEach of insertFromGraph: collect the
persisted (schema, type) pairs and track the primary index exactly as
the source does. -/
def graphFoldStep (primaryType : String) (acc : List (JVal × String) × Nat)
    (item : JVal) : List (JVal × String) × Nat :=
  let type := extractSchemaType item
  if referenceOnlyTypes.contains type && item.keysLength ≤ 3 then acc
  else
    let schemas := acc.1 ++ [(item, type)]
    let pidx :=
      if primaryType != "" && type == primaryType then schemas.length - 1
      else if primaryType == "" && isPreferredPrimaryType type then
        schemas.length - 1
      else acc.2
    (schemas, pidx)

/-- Graph-splitting fold of insertFromGraph, iterating graphFoldStep
over the @graph items. -/
def graphFold (items : List JVal) (primaryType : String) :
    List (JVal × String) × Nat :=
  items.foldl (graphFoldStep primaryType) ([], 0)

/-- Persisted insertion plan of insertFromGraph: the filtered schema
list reordered so the schema at the computed primary index comes
first. -/
def graphPlan (items : List JVal) (primaryType : String) : List (JVal × String) :=
  let fold := graphFold items primaryType
  if fold.2 > 0 then
    match fold.1.get? fold.2 with
    | some prim => prim :: fold.1.eraseIdx fold.2
    | none => fold.1
  else fold.1

/-- Split a JSON-LD @graph into individual schemas and insert them
(insertFromGraph). -/
def insertFromGraph (pid : Nat) (graphSchema : JVal) (opts : DbOpts)
    (st : DBState) : DBState × (Bool × List InsertResult × Bool) :=
  match graphSchema.getField "@graph" with
  | some (.arr items) =>
    insertMultipleSchemas pid (graphPlan items (opts.primaryType.getD ""))
      { dryRun := opts.dryRun, backup := opts.backup } st
  | _ => (st, (false, [], false))

/-- Set the rank_math_rich_snippet meta (setRichSnippetType). -/
def setRichSnippetType (pid : Nat) (snippetType : String) (opts : DbOpts)
    (st : DBState) : DBState × (Bool × String) :=
  let dryRun := opts.dryRun.getD true
  let metaKey := "rank_math_rich_snippet"
  let existing := st.rows.filter (fun r => r.postId == pid && r.key == metaKey)
  if dryRun then
    (st, (true, if existing.isEmpty then "INSERT" else "UPDATE"))
  else
    match existing with
    | r :: _ =>
      ({ st with rows := st.rows.map (fun row =>
          if row.metaId == r.metaId then { row with value := snippetType } else row) },
       (true, "UPDATE"))
    | [] =>
      ({ st with
          rows := st.rows ++ [⟨st.nextMetaId, pid, metaKey, snippetType⟩],
          nextMetaId := st.nextMetaId + 1 },
       (true, "INSERT"))

/-- Restore a post to its backed-up state (rollback): the in-memory
backup map is consulted first, then the file-persisted backups; every
current rank_math_schema_ row is deleted and the captured schema rows
are re-inserted. -/
def rollback (pid : Nat) (st : DBState) : DBState × (Bool × Nat) :=
  let backup : Option BackupEntry :=
    match st.memBackups.find? (fun kv => kv.1 == pid) with
    | some kv => some kv.2
    | none =>
      match st.fileBackups.find? (fun kv => kv.1 == pid) with
      | some kv => some kv.2
      | none => none
  match backup with
  | none => (st, (false, 0))
  | some b =>
    let kept := st.rows.filter (fun r =>
      !(r.postId == pid && likeMatchS "rank_math_schema_%" r.key))
    let restored := b.schemas.filter (fun m => jsStartsWith m.key "rank_math_schema_")
    let newRows := restored.enum.map (fun (p : Nat × BackupRow) =>
      (⟨st.nextMetaId + p.1, pid, p.2.key, p.2.value⟩ : MetaRow))
    ({ st with rows := kept ++ newRows, nextMetaId := st.nextMetaId + restored.length },
     (true, restored.length))

/-- Delete one meta row by id (deleteMeta). -/
def deleteMeta (metaId : Nat) (opts : DbOpts) (st : DBState) :
    DBState × (Bool × Bool) :=
  let dryRun := opts.dryRun.getD true
  match st.rows.find? (fun r => r.metaId == metaId) with
  | none => (st, (false, false))
  | some _ =>
    if dryRun then (st, (true, true))
    else
      ({ st with rows := st.rows.filter (fun r => !(r.metaId == metaId)) },
       (true, false))

/-- Delete every rank_math_schema_ row of a post (deleteAllSchemas),
backed up first when committing with backup enabled. -/
def deleteAllSchemas (pid : Nat) (opts : DbOpts) (st : DBState) :
    DBState × (Bool × Nat) :=
  let dryRun := opts.dryRun.getD true
  let backup := opts.backup.getD true
  let existing := st.rows.filter (fun r =>
    r.postId == pid && likeMatchS "rank_math_schema_%" r.key)
  if dryRun then (st, (true, existing.length))
  else
    let st1 := if backup then backupMeta pid st else st
    ({ st1 with rows := st1.rows.filter (fun r =>
        !(r.postId == pid && likeMatchS "rank_math_schema_%" r.key)) },
     (true, existing.length))

theorem foldl_fst_const {α β γ : Type} (f : α × β → γ → α × β)
    (hf : ∀ acc c, (f acc c).1 = acc.1) :
    ∀ (l : List γ) (acc : α × β), (l.foldl f acc).1 = acc.1 := by
  intro l
  induction l with
  | nil => intro acc; rfl
  | cons c rest ih =>
    intro acc
    rw [List.foldl_cons, ih, hf]

theorem insertSchema_dry (pid : Nat) (schema : JVal) (schemaType : Option String)
    (opts : DbOpts) (st : DBState) (h : opts.dryRun.getD true = true) :
    (insertSchema pid schema schemaType opts st).1 = st := by
  unfold insertSchema
  simp only [h]
  split
  · rfl
  · rfl

theorem insertMultipleSchemas_dry (pid : Nat) (schemas : List (JVal × String))
    (opts : DbOpts) (st : DBState) (h : opts.dryRun.getD true = true) :
    (insertMultipleSchemas pid schemas opts st).1 = st := by
  unfold insertMultipleSchemas
  simp only [h, Bool.not_true, Bool.and_false, Bool.false_eq_true, if_false]
  refine foldl_fst_const _ ?_ _ _
  intro acc c
  exact insertSchema_dry _ _ _ _ _ rfl

theorem insertFromGraph_dry (pid : Nat) (graphSchema : JVal)
    (opts : DbOpts) (st : DBState) (h : opts.dryRun.getD true = true) :
    (insertFromGraph pid graphSchema opts st).1 = st := by
  unfold insertFromGraph
  split
  · exact insertMultipleSchemas_dry _ _ _ _ h
  · rfl

theorem deleteMeta_dry (metaId : Nat) (opts : DbOpts) (st : DBState)
    (h : opts.dryRun.getD true = true) :
    (deleteMeta metaId opts st).1 = st := by
  unfold deleteMeta
  split
  · rfl
  · simp [h]

theorem deleteAllSchemas_dry (pid : Nat) (opts : DbOpts) (st : DBState)
    (h : opts.dryRun.getD true = true) :
    (deleteAllSchemas pid opts st).1 = st := by
  unfold deleteAllSchemas
  simp [h]

theorem setRichSnippetType_dry (pid : Nat) (snippetType : String)
    (opts : DbOpts) (st : DBState) (h : opts.dryRun.getD true = true) :
    (setRichSnippetType pid snippetType opts st).1 = st := by
  unfold setRichSnippetType
  simp [h]

theorem dryRun_getD_of_not_false (opts : DbOpts) (h : opts.dryRun ≠ some false) :
    opts.dryRun.getD true = true := by
  cases hd : opts.dryRun with
  | none => rfl
  | some b =>
    cases b with
    | false => exact absurd hd h
    | true => rfl

/-- C6: for every destructive store operation (insertSchema,
insertMultipleSchemas, insertFromGraph, deleteMeta, deleteAllSchemas,
setRichSnippetType), when the caller does not explicitly pass
dryRun: false, the operation performs no INSERT, UPDATE, or DELETE
against the store: the modelled postmeta rows are unchanged. -/
theorem destructive_ops_default_to_dry_run (opts : DbOpts)
    (h : opts.dryRun ≠ some false) :
    (∀ pid schema schemaType st,
      (insertSchema pid schema schemaType opts st).1.rows = st.rows) ∧
    (∀ pid schemas st,
      (insertMultipleSchemas pid schemas opts st).1.rows = st.rows) ∧
    (∀ pid graphSchema st,
      (insertFromGraph pid graphSchema opts st).1.rows = st.rows) ∧
    (∀ metaId st, (deleteMeta metaId opts st).1.rows = st.rows) ∧
    (∀ pid st, (deleteAllSchemas pid opts st).1.rows = st.rows) ∧
    (∀ pid snippetType st,
      (setRichSnippetType pid snippetType opts st).1.rows = st.rows) := by
  have hd := dryRun_getD_of_not_false opts h
  refine ⟨?_, ?_, ?_, ?_, ?_, ?_⟩
  · intro pid schema schemaType st
    rw [insertSchema_dry pid schema schemaType opts st hd]
  · intro pid schemas st
    rw [insertMultipleSchemas_dry pid schemas opts st hd]
  · intro pid graphSchema st
    rw [insertFromGraph_dry pid graphSchema opts st hd]
  · intro metaId st
    rw [deleteMeta_dry metaId opts st hd]
  · intro pid st
    rw [deleteAllSchemas_dry pid opts st hd]
  · intro pid snippetType st
    rw [setRichSnippetType_dry pid snippetType opts st hd]

/-- Concrete store state used by the dry-run witness. -/
def witnessState : DBState :=
  ⟨[1], [⟨7, 1, "rank_math_schema_Service", "a:0:\x7b\x7d"⟩], 8, [], [], 0, 0⟩

/-- Witness for C6 at a concrete state and empty options record. -/
theorem destructive_ops_default_to_dry_run_witness :
    ({} : DbOpts).dryRun ≠ some false ∧
    ((insertSchema 1 (.obj [("@type", .s "Service")]) none {} witnessState).1.rows =
      witnessState.rows ∧
     (deleteAllSchemas 1 {} witnessState).1.rows = witnessState.rows) := by
  have h : ({} : DbOpts).dryRun ≠ some false := by
    intro hc
    simp at hc
  refine ⟨h, ?_, ?_⟩
  · exact (destructive_ops_default_to_dry_run {} h).1 1 _ none witnessState
  · exact (destructive_ops_default_to_dry_run {} h).2.2.2.2.1 1 witnessState

/-- Specification-side description of which persisted entity becomes
primary: the last entity of a preferred type in the persisted list, and
the first persisted entity when no preferred type occurs. -/
def specPrimary (persisted : List (JVal × String)) : Option (JVal × String) :=
  match (persisted.filter (fun p => isPreferredPrimaryType p.2)).getLast? with
  | some prim => some prim
  | none => persisted.head?

/-- Invariant of the graph-splitting fold with no primaryType: the
tracked index stays 0 while no preferred-type entity has been collected,
and otherwise points at the most recently collected preferred-type
entity. -/
def graphFoldInv (acc : List (JVal × String) × Nat) : Prop :=
  match (acc.1.filter (fun p => isPreferredPrimaryType p.2)).getLast? with
  | none => acc.2 = 0
  | some prim => acc.2 < acc.1.length ∧ acc.1.get? acc.2 = some prim

theorem graphFoldStep_inv (item : JVal) (acc : List (JVal × String) × Nat)
    (h : graphFoldInv acc) : graphFoldInv (graphFoldStep "" acc item) := by
  unfold graphFoldStep
  dsimp only []
  split
  · exact h
  · simp only [bne_self_eq_false, Bool.false_and, Bool.false_eq_true, if_false,
      beq_self_eq_true, Bool.true_and]
    by_cases hpref : isPreferredPrimaryType (extractSchemaType item) = true
    · rw [if_pos hpref]
      unfold graphFoldInv at *
      have hfilter :
          ((acc.1 ++ [(item, extractSchemaType item)]).filter
            (fun p => isPreferredPrimaryType p.2)) =
          (acc.1.filter (fun p => isPreferredPrimaryType p.2)) ++
            [(item, extractSchemaType item)] := by
        rw [List.filter_append]
        simp [hpref]
      rw [hfilter, List.getLast?_append]
      simp only [List.getLast?_singleton]
      constructor
      · simp
      · have hlen : (acc.1 ++ [(item, extractSchemaType item)]).length - 1 =
            acc.1.length := by simp
        rw [hlen]
        exact List.get?_concat_length acc.1 _
    · rw [if_neg hpref]
      unfold graphFoldInv at *
      have hfilter :
          ((acc.1 ++ [(item, extractSchemaType item)]).filter
            (fun p => isPreferredPrimaryType p.2)) =
          acc.1.filter (fun p => isPreferredPrimaryType p.2) := by
        rw [List.filter_append]
        simp only [Bool.not_eq_true] at hpref
        simp [hpref]
      rw [hfilter]
      revert h
      cases hlast : (acc.1.filter (fun p => isPreferredPrimaryType p.2)).getLast? with
      | none => intro h; exact h
      | some prim =>
        intro h
        refine ⟨by simp; omega, ?_⟩
        rw [List.get?_append h.1]
        exact h.2

theorem graphFold_inv (items : List JVal) : graphFoldInv (graphFold items "") := by
  unfold graphFold
  have go : ∀ (l : List JVal) (acc : List (JVal × String) × Nat),
      graphFoldInv acc → graphFoldInv (l.foldl (graphFoldStep "") acc) := by
    intro l
    induction l with
    | nil => intro acc h; exact h
    | cons x rest ih =>
      intro acc h
      rw [List.foldl_cons]
      exact ih _ (graphFoldStep_inv x acc h)
  refine go items ([], 0) ?_
  unfold graphFoldInv
  rfl

theorem insertMultipleCalls_countP (l : List (JVal × String)) (h : l ≠ []) :
    (insertMultipleCalls l).countP (fun c => c.2.2) = 1 := by
  match l, h with
  | x :: rest, _ =>
    unfold insertMultipleCalls
    rw [List.countP_cons]
    simp only [List.countP_map]
    have : rest.countP ((fun (c : JVal × String × Bool) => c.2.2) ∘
        (fun (y : JVal × String) => (y.1, y.2, false))) = 0 := by
      apply List.countP_eq_zero.mpr
      intro a _
      simp [Function.comp]
    simp [this]

/-- C1 (amended): for insertFromGraph with no explicit primaryType,
exactly one insertSchema call of the underlying insertMultipleSchemas
loop carries the primary flag, namely the first entry of the reordered
plan, and that entry is the LAST entity of a preferred type (Service,
Article or Product) in the persisted list — the first persisted entity
when no preferred type is present. -/
theorem insertFromGraph_primary_designation (items : List JVal)
    (h : graphPlan items "" ≠ []) :
    (insertMultipleCalls (graphPlan items "")).countP (fun c => c.2.2) = 1 ∧
    ((insertMultipleCalls (graphPlan items "")).head?.map (fun c => c.2.2)) =
      some true ∧
    (graphPlan items "").head? = specPrimary (graphFold items "").1 := by
  refine ⟨insertMultipleCalls_countP _ h, ?_, ?_⟩
  · match hp : graphPlan items "", h with
    | x :: rest, _ => rfl
  · have hinv := graphFold_inv items
    unfold graphPlan at *
    unfold graphFoldInv at hinv
    unfold specPrimary
    revert hinv
    cases hlast : ((graphFold items "").1.filter
        (fun p => isPreferredPrimaryType p.2)).getLast? with
    | none =>
      intro hinv
      simp only [hinv, gt_iff_lt, lt_self_iff_false, if_false]
    | some prim =>
      intro hinv
      by_cases hpos : (graphFold items "").2 > 0
      · simp only [hpos, if_true]
        rw [hinv.2]
        rfl
      · have hz : (graphFold items "").2 = 0 := by omega
        simp only [hpos, if_false]
        rw [← List.get?_zero, ← hz]
        exact hinv.2

/-- Concrete @graph used to witness and refute C1: a Service entity
followed by an Article entity. -/
def graphCexService : JVal := .obj [("@type", .s "Service"), ("name", .s "S")]

/-- Second entity of the C1 counterexample graph. -/
def graphCexArticle : JVal := .obj [("@type", .s "Article"), ("name", .s "A")]

/-- C1 counterexample: on the @graph [Service, Article] with no
primaryType option, the first preferred-type entity of the @graph array
is the Service entity, yet the entity insertFromGraph orders first (and
therefore designates primary) is the Article entity. -/
theorem insertFromGraph_primary_not_first_preferred :
    [graphCexService, graphCexArticle].find?
      (fun e => isPreferredPrimaryType (extractSchemaType e)) =
      some graphCexService ∧
    (graphPlan [graphCexService, graphCexArticle] "").head? =
      some (graphCexArticle, "Article") ∧
    (graphPlan [graphCexService, graphCexArticle] "").head? ≠
      some (graphCexService, "Service") := by
  refine ⟨rfl, rfl, ?_⟩
  intro hc
  rw [show (graphPlan [graphCexService, graphCexArticle] "").head? =
    some (graphCexArticle, "Article") from rfl] at hc
  simp only [Option.some.injEq, Prod.mk.injEq] at hc
  have := hc.2
  simp at this

/-- Witness for the amended C1 theorem on the concrete two-entity
graph. -/
theorem insertFromGraph_primary_designation_witness :
    graphPlan [graphCexService, graphCexArticle] "" ≠ [] ∧
    ((insertMultipleCalls (graphPlan [graphCexService, graphCexArticle] "")).countP
      (fun c => c.2.2) = 1 ∧
     ((insertMultipleCalls (graphPlan [graphCexService, graphCexArticle] "")).head?.map
      (fun c => c.2.2)) = some true ∧
     (graphPlan [graphCexService, graphCexArticle] "").head? =
      specPrimary (graphFold [graphCexService, graphCexArticle] "").1) := by
  have hne : graphPlan [graphCexService, graphCexArticle] "" ≠ [] := by
    rw [show graphPlan [graphCexService, graphCexArticle] "" =
      [(graphCexArticle, "Article"), (graphCexService, "Service")] from rfl]
    exact List.cons_ne_nil _ _
  exact ⟨hne, insertFromGraph_primary_designation [graphCexService, graphCexArticle] hne⟩

/-- Schema meta rows of a post: key and serialized value of every row
whose key lives in the rank_math_schema_ namespace. -/
def schemaRows (pid : Nat) (st : DBState) : List (String × String) :=
  (st.rows.filter (fun r => r.postId == pid && jsStartsWith r.key "rank_math_schema_")).map
    (fun r => (r.key, r.value))

theorem assocSet_find (m : List (Nat × BackupEntry)) (k : Nat) (v : BackupEntry) :
    (assocSet m k v).find? (fun kv => kv.1 == k) = some (k, v) := by
  induction m with
  | nil => simp [assocSet]
  | cons kv rest ih =>
    unfold assocSet
    by_cases hk : (kv.1 == k) = true
    · simp [hk]
    · simp only [hk, if_false, Bool.false_eq_true]
      rw [List.find?_cons_of_neg _ (by simpa using hk)]
      exact ih

theorem backupMeta_rows (pid : Nat) (st : DBState) :
    (backupMeta pid st).rows = st.rows := rfl

theorem backupMeta_posts (pid : Nat) (st : DBState) :
    (backupMeta pid st).posts = st.posts := rfl

theorem backupMeta_memBackups (pid : Nat) (st : DBState) :
    (backupMeta pid st).memBackups =
      assocSet st.memBackups pid ⟨st.now, getExistingSchemas pid st⟩ := rfl

theorem getExistingSchemas_rows_eq (pid : Nat) (st st' : DBState)
    (h : st.rows = st'.rows) :
    getExistingSchemas pid st = getExistingSchemas pid st' := by
  unfold getExistingSchemas
  rw [h]

/-- The in-memory backup map after a committed insertSchema either is
untouched (preview failure) or holds a fresh snapshot of the rows
present when insertSchema started. -/
theorem insertSchema_memBackups_cases (pid : Nat) (schema : JVal)
    (schemaType : Option String) (opts : DbOpts) (st : DBState) :
    (insertSchema pid schema schemaType opts st).1.memBackups = st.memBackups ∨
    (insertSchema pid schema schemaType opts st).1.memBackups =
      assocSet st.memBackups pid ⟨st.now, getExistingSchemas pid st⟩ := by
  unfold insertSchema
  dsimp only []
  split
  · left; rfl
  · split
    · left; rfl
    · by_cases hb : opts.backup.getD true = true
      · rw [if_pos hb]
        split
        · right; rfl
        · right; rfl
      · rw [if_neg hb]
        split
        · left; rfl
        · left; rfl

theorem filter_of_all_false {α : Type} (p : α → Bool) (l : List α)
    (h : ∀ a ∈ l, p a = false) : l.filter p = [] := by
  induction l with
  | nil => rfl
  | cons x rest ih =>
    rw [List.filter_cons, h x (by simp)]
    exact ih (fun a ha => h a (by simp [ha]))

theorem filter_of_all_true {α : Type} (p : α → Bool) (l : List α)
    (h : ∀ a ∈ l, p a = true) : l.filter p = l := by
  induction l with
  | nil => rfl
  | cons x rest ih =>
    rw [List.filter_cons, h x (by simp)]
    simp only [if_true]
    rw [ih (fun a ha => h a (by simp [ha]))]

theorem filter_map_comm {α β : Type} (f : α → β) (p : β → Bool) (l : List α) :
    (l.map f).filter p = (l.filter (fun a => p (f a))).map f := by
  induction l with
  | nil => rfl
  | cons x rest ih =>
    rw [List.map_cons, List.filter_cons, List.filter_cons]
    by_cases hx : p (f x) = true
    · simp only [hx, if_true, List.map_cons]
      rw [ih]
    · simp only [hx, if_false, Bool.false_eq_true]
      exact ih

theorem filter_congr_members {α : Type} (p q : α → Bool) (l : List α)
    (h : ∀ a ∈ l, p a = q a) : l.filter p = l.filter q := by
  induction l with
  | nil => rfl
  | cons x rest ih =>
    rw [List.filter_cons, List.filter_cons, h x (by simp)]
    rw [ih (fun a ha => h a (by simp [ha]))]


theorem filter_filter_fused {α : Type} (p q : α → Bool) (l : List α) :
    (l.filter q).filter p = l.filter (fun a => q a && p a) := by
  induction l with
  | nil => rfl
  | cons x rest ih =>
    rw [List.filter_cons, List.filter_cons]
    by_cases hq : q x = true
    · rw [if_pos hq, List.filter_cons]
      by_cases hp : p x = true
      · simp only [hq, hp, Bool.and_self, if_true]
        rw [ih]
      · simp only [hq, hp, Bool.and_false, if_false, Bool.false_eq_true]
        exact ih
    · simp only [hq, Bool.false_and, if_false, Bool.false_eq_true]
      exact ih

/-- Rows re-inserted by rollback, filtered back down to the post's
schema namespace, reproduce exactly the captured keys and values. -/
theorem rollback_reinserted_rows (pid : Nat) :
    ∀ (l : List BackupRow) (i nid : Nat),
    (∀ m ∈ l, jsStartsWith m.key "rank_math_schema_" = true) →
    (((l.enumFrom i).map (fun p =>
        (⟨nid + p.1, pid, p.2.key, p.2.value⟩ : MetaRow))).filter
      (fun r => r.postId == pid && jsStartsWith r.key "rank_math_schema_")).map
      (fun r => (r.key, r.value)) =
    l.map (fun m => (m.key, m.value)) := by
  intro l
  induction l with
  | nil => intro i nid h; rfl
  | cons m rest ih =>
    intro i nid h
    show ((((i, m) :: rest.enumFrom (i + 1)).map (fun p =>
        (⟨nid + p.1, pid, p.2.key, p.2.value⟩ : MetaRow))).filter
      (fun r => r.postId == pid && jsStartsWith r.key "rank_math_schema_")).map
      (fun r => (r.key, r.value)) = (m.key, m.value) :: rest.map (fun x => (x.key, x.value))
    rw [List.map_cons, List.filter_cons]
    have hm : jsStartsWith m.key "rank_math_schema_" = true := h m (by simp)
    simp only [hm, beq_self_eq_true, Bool.and_self, if_true]
    rw [List.map_cons]
    rw [ih (i + 1) nid (fun a ha => h a (by simp [ha]))]

/-- C4: for every store state, post and schema, performing backupMeta,
then a committed insertSchema (dryRun false), then rollback leaves the
store containing exactly the schema meta rows (keys and serialized
values, in order) that were present for that post immediately before
the committed write. -/
theorem backup_insert_rollback_restores (st0 : DBState) (pid : Nat)
    (schema : JVal) (schemaType : Option String) :
    schemaRows pid
      ((rollback pid
        ((insertSchema pid schema schemaType { dryRun := some false }
          (backupMeta pid st0)).1)).1) =
      schemaRows pid (backupMeta pid st0) ∧
    schemaRows pid (backupMeta pid st0) = schemaRows pid st0 := by
  have hrows1 : (backupMeta pid st0).rows = st0.rows := backupMeta_rows pid st0
  have hsecond : schemaRows pid (backupMeta pid st0) = schemaRows pid st0 := by
    unfold schemaRows
    rw [hrows1]
  refine ⟨?_, hsecond⟩
  rw [hsecond]
  set st1 := backupMeta pid st0 with hst1
  set st2 := (insertSchema pid schema schemaType { dryRun := some false } st1).1 with hst2
  have hE : getExistingSchemas pid st1 = getExistingSchemas pid st0 :=
    getExistingSchemas_rows_eq pid st1 st0 hrows1
  have hmem : ∃ ts, st2.memBackups.find? (fun kv => kv.1 == pid) =
      some (pid, ⟨ts, getExistingSchemas pid st0⟩) := by
    rcases insertSchema_memBackups_cases pid schema schemaType
        { dryRun := some false } st1 with hcase | hcase
    · refine ⟨st0.now, ?_⟩
      rw [← hst2] at hcase
      rw [hcase, hst1, backupMeta_memBackups]
      exact assocSet_find _ _ _
    · refine ⟨st1.now, ?_⟩
      rw [← hst2] at hcase
      rw [hcase, hE]
      exact assocSet_find _ _ _
  obtain ⟨ts, hmem⟩ := hmem
  unfold rollback
  rw [hmem]
  dsimp only []
  unfold schemaRows
  dsimp only []
  rw [List.filter_append, List.map_append]
  have hkept : ((st2.rows.filter (fun r =>
      !(r.postId == pid && likeMatchS "rank_math_schema_%" r.key))).filter
      (fun r => r.postId == pid && jsStartsWith r.key "rank_math_schema_")) = [] := by
    rw [filter_filter_fused]
    apply filter_of_all_false
    intro r _
    by_cases hP : (r.postId == pid && jsStartsWith r.key "rank_math_schema_") = true
    · have hpid : (r.postId == pid) = true := ((Bool.and_eq_true _ _).mp hP).1
      have hsw : jsStartsWith r.key "rank_math_schema_" = true :=
        ((Bool.and_eq_true _ _).mp hP).2
      have hlike := likeMatch_schema_of_startsWith r.key hsw
      simp [hpid, hsw, hlike]
    · simp only [Bool.and_eq_true, not_and] at hP
      by_cases hpid : (r.postId == pid) = true
      · have hsw := hP hpid
        simp [hsw]
      · simp [hpid]
  rw [hkept]
  rw [List.map_nil, List.nil_append]
  have hre := rollback_reinserted_rows pid
    ((getExistingSchemas pid st0).filter
      (fun m => jsStartsWith m.key "rank_math_schema_"))
    0 st2.nextMetaId
    (by
      intro m hmm
      exact (List.mem_filter.mp hmm).2)
  rw [show ∀ (l : List BackupRow), l.enum = l.enumFrom 0 from fun l => rfl]
  rw [hre]
  unfold getExistingSchemas
  rw [filter_map_comm]
  rw [List.map_map]
  rw [filter_filter_fused]
  dsimp only [Function.comp]
  apply congrArg
  apply filter_congr_members
  intro r _
  by_cases hsw : jsStartsWith r.key "rank_math_schema_" = true
  · have hlike := likeMatch_rankmath_of_startsWith r.key hsw
    simp [hsw, hlike]
  · simp only [Bool.not_eq_true] at hsw
    simp [hsw]

/-- Observable effects of one insertSchema call against the store and
the backup storage, in program order. -/
inductive DbEv where
  | sqlRead
  | memBackup
  | filePersistOk
  | filePersistErr
  | sqlWrite
deriving Repr, BEq, DecidableEq

/-- Failure environment for one insertSchema call: whether the post
exists, whether the SELECT inside backupMeta succeeds, and whether the
fs.writeFileSync persisting backups.json succeeds. -/
structure TraceEnv where
  postExists : Bool
  backupReadOk : Bool
  fsOk : Bool
deriving Repr

/-- Outcome of one insertSchema call: its effect trace, whether the
resolved result reports success, and whether the returned promise
rejected (an exception escaped). -/
structure TraceOutcome where
  events : List DbEv
  success : Bool
  threw : Bool
deriving Repr

/-- Effect trace of backupMeta: the getExistingSchemas SELECT (whose
failure rejects and propagates), the in-memory Map.set, then
saveBackupsToFile, whose fs.writeFileSync failure is caught inside a
try/catch and only logged. -/
def backupMetaEffects (env : TraceEnv) : List DbEv × Bool :=
  if !env.backupReadOk then ([.sqlRead], false)
  else ([.sqlRead, .memBackup, if env.fsOk then .filePersistOk else .filePersistErr], true)

/-- Effect trace of insertSchema following the source control flow:
previewInsertion always runs first (two SELECTs); a dry run stops
there; a commit with backup requested runs backupMeta before the
destructive write, and a commit without backup writes directly. -/
def insertSchemaEffects (env : TraceEnv) (dryRun backup : Bool) : TraceOutcome :=
  let preview : List DbEv := [.sqlRead, .sqlRead]
  if !env.postExists then ⟨preview, false, false⟩
  else if dryRun then ⟨preview, true, false⟩
  else if backup then
    let b := backupMetaEffects env
    if !b.2 then ⟨preview ++ b.1, false, true⟩
    else ⟨preview ++ b.1 ++ [.sqlWrite], true, false⟩
  else ⟨preview ++ [.sqlWrite], true, false⟩

/-- C5 (amended): on a committed insertSchema with backup requested,
the in-memory backup snapshot always completes before the destructive
write is issued (no write occurs before the memBackup event, and any
write implies a memBackup happened), and a failure of the SELECT taken
for the backup aborts the operation with a propagated error.  The
durable-file part of the backup is NOT part of this guarantee: its
failure is caught and the write proceeds (see the counterexample). -/
theorem insertSchema_backup_precedes_write (env : TraceEnv) :
    ((insertSchemaEffects env false true).events.contains DbEv.sqlWrite = true →
      (insertSchemaEffects env false true).events.contains DbEv.memBackup = true ∧
      ((insertSchemaEffects env false true).events.takeWhile
        (fun e => e != DbEv.memBackup)).contains DbEv.sqlWrite = false) ∧
    (env.backupReadOk = false → env.postExists = true →
      (insertSchemaEffects env false true).events.contains DbEv.sqlWrite = false ∧
      (insertSchemaEffects env false true).threw = true) := by
  obtain ⟨pe, bro, fs⟩ := env
  cases pe <;> cases bro <;> cases fs <;> exact (by decide)

/-- Witness for the amended C5 theorem: a failing backup SELECT aborts
the commit before any write. -/
theorem insertSchema_backup_precedes_write_witness :
    ((insertSchemaEffects ⟨true, false, true⟩ false true).events.contains
        DbEv.sqlWrite = true →
      (insertSchemaEffects ⟨true, false, true⟩ false true).events.contains
        DbEv.memBackup = true ∧
      ((insertSchemaEffects ⟨true, false, true⟩ false true).events.takeWhile
        (fun e => e != DbEv.memBackup)).contains DbEv.sqlWrite = false) ∧
    ((⟨true, false, true⟩ : TraceEnv).backupReadOk = false →
      (⟨true, false, true⟩ : TraceEnv).postExists = true →
      (insertSchemaEffects ⟨true, false, true⟩ false true).events.contains
        DbEv.sqlWrite = false ∧
      (insertSchemaEffects ⟨true, false, true⟩ false true).threw = true) :=
  insertSchema_backup_precedes_write ⟨true, false, true⟩

/-- C5 counterexample: when persisting the backup file to durable
storage fails (fsOk = false) on a committed insertSchema with backup
requested, the destructive write still proceeds and the result reports
success — the durable-backup failure is swallowed rather than blocking
the write. -/
theorem insertSchema_swallows_file_backup_failure :
    (insertSchemaEffects ⟨true, true, false⟩ false true).events.contains
      DbEv.filePersistErr = true ∧
    (insertSchemaEffects ⟨true, true, false⟩ false true).events.contains
      DbEv.sqlWrite = true ∧
    (insertSchemaEffects ⟨true, true, false⟩ false true).success = true ∧
    (insertSchemaEffects ⟨true, true, false⟩ false true).threw = false := by
  decide

/-- Regex AST covering the constructs used by the source patterns:
character sets (literals, classes, escapes), concatenation,
alternation, Kleene star and a single capture group. -/
inductive Rx where
  | eps
  | cset (p : Char → Bool)
  | cat (a b : Rx)
  | alt (a b : Rx)
  | star (a : Rx)
  | grp (a : Rx)

/-- Star-unfolding loop: try one iteration of the body matcher (which
must consume input for the unfolding to continue) followed by the rest
of the star, then the empty match, in greedy order.  The fuel bound is
structural; callers pass the input length, which suffices because every
counted iteration consumes at least one character. -/
def starLoop (ma : List Char → List (List Char × Option (List Char))) :
    Nat → List Char → List (List Char × Option (List Char))
  | 0, cs => [(cs, none)]
  | n + 1, cs =>
    ((ma cs).flatMap (fun r1 =>
      if r1.1.length < cs.length then
        (starLoop ma n r1.1).map (fun r2 => (r2.1, r1.2.orElse (fun _ => r2.2)))
      else [])) ++ [(cs, none)]

/-- Backtracking matcher: all ways to match a prefix of the input,
returned as (remaining input, capture of the group if any), in greedy
backtracking priority order as JavaScript regexes behave. -/
def mrun : Rx → List Char → List (List Char × Option (List Char))
  | .eps, cs => [(cs, none)]
  | .cset p, cs =>
    match cs with
    | [] => []
    | c :: t => if p c then [(t, none)] else []
  | .cat a b, cs =>
    (mrun a cs).flatMap (fun r1 =>
      (mrun b r1.1).map (fun r2 => (r2.1, r1.2.orElse (fun _ => r2.2))))
  | .alt a b, cs => mrun a cs ++ mrun b cs
  | .star a, cs => starLoop (mrun a) cs.length cs
  | .grp a, cs =>
    (mrun a cs).map (fun r1 => (r1.1, some (cs.take (cs.length - r1.1.length))))

/-- JavaScript RegExp.prototype.exec / String.prototype.match semantics
for an unanchored pattern: try every start position left to right and
return, for the first position with a match, the capture of group 1
(none when the pattern has no group). -/
def rxMatch (r : Rx) (s : String) : Option (Option String) :=
  let cs := s.toList
  (List.range (cs.length + 1)).findSome? (fun i =>
    let sub := cs.drop i
    match mrun r sub with
    | [] => none
    | (_, cap) :: _ => some (cap.map (fun l => String.mk l)))

/-- RegExp.prototype.test. -/
def rxTest (r : Rx) (s : String) : Bool :=
  (rxMatch r s).isSome

/-- Matching of a fully anchored pattern (written with leading caret
and trailing dollar in the source). -/
def rxMatchesFull (r : Rx) (s : String) : Bool :=
  (mrun r s.toList).any (fun p => p.1.isEmpty)

/-- Case-insensitive literal character (the i flag). -/
def Rx.chI (c : Char) : Rx := .cset (fun x => x.toLower == c.toLower)

/-- Case-sensitive literal character. -/
def Rx.ch (c : Char) : Rx := .cset (fun x => x == c)

/-- Case-insensitive literal string. -/
def Rx.litI (s : String) : Rx :=
  s.toList.foldr (fun c acc => .cat (.chI c) acc) .eps

/-- Case-sensitive literal string. -/
def Rx.lit (s : String) : Rx :=
  s.toList.foldr (fun c acc => .cat (.ch c) acc) .eps

/-- Sequence of regexes. -/
def Rx.seqAll (l : List Rx) : Rx := l.foldr .cat .eps

/-- Ordered alternation of regexes (an empty list never matches). -/
def Rx.altAll : List Rx → Rx
  | [] => .cset (fun _ => false)
  | [x] => x
  | x :: rest => .alt x (Rx.altAll rest)

/-- Optional (question mark), greedy like JavaScript. -/
def Rx.quest (a : Rx) : Rx := .alt a .eps

/-- One-or-more (plus). -/
def Rx.rep1 (a : Rx) : Rx := .cat a (.star a)

/-- JavaScript whitespace class backslash-s (ASCII part). -/
def wsChar (c : Char) : Bool :=
  c == ' ' || c == '\t' || c == '\n' || c == '\r' || c == '\x0b' || c == '\x0c'

/-- ASCII digit class backslash-d. -/
def digitChar (c : Char) : Bool := c.isDigit

/-- ASCII lowercase letter. -/
def asciiLower (c : Char) : Bool := 'a' ≤ c && c ≤ 'z'

/-- ASCII uppercase letter. -/
def asciiUpper (c : Char) : Bool := 'A' ≤ c && c ≤ 'Z'

/-- Any ASCII letter, the meaning of [a-z] or [A-Z] under the i flag. -/
def asciiLetter (c : Char) : Bool := asciiLower c || asciiUpper c

/-- JavaScript word character backslash-w. -/
def jsWordChar (c : Char) : Bool := asciiLetter c || digitChar c || c == '_'

/-- Whitespace star. -/
def Rx.wsS : Rx := .star (.cset wsChar)

/-- Whitespace plus. -/
def Rx.wsP : Rx := Rx.rep1 (.cset wsChar)

/-- Character class [s-dash]* as in [\s-]* patterns. -/
def Rx.wsDashS : Rx := .star (.cset (fun c => wsChar c || c == '-'))

/-- Heading extracted from a page (only the text is consumed by the
modelled modules). -/
structure Heading where
  text : String
deriving Repr, BEq

/-- WordPress post-type hint attached to scraped page data. -/
structure WordpressInfo where
  postType : String
deriving Repr, BEq

/-- FAQ pair extracted from a page. -/
structure FaqPair where
  question : String
  answer : String
deriving Repr, BEq, DecidableEq

/-- Scraped page data consumed by the classifier and the builders.  An
absent string field is the empty string (JavaScript falsy). -/
structure PageData where
  url : String := ""
  title : String := ""
  description : String := ""
  content : String := ""
  headings : List Heading := []
  author : String := ""
  publishDate : String := ""
  modifiedDate : String := ""
  featuredImage : String := ""
  categories : List String := []
  tags : List String := []
  faqs : List FaqPair := []
  phone : String := ""
  serviceAreas : List String := []
  wordpressInfo : Option WordpressInfo := none
deriving Repr

/-- JavaScript String.prototype.includes. -/
def jsIncludes (s sub : String) : Bool :=
  (List.range (s.toList.length + 1)).any (fun i => sub.toList.isPrefixOf (s.toList.drop i))

/-- String.prototype.toLowerCase, on character lists so that it
evaluates inside the kernel. -/
def jsToLower (s : String) : String :=
  String.mk (s.toList.map Char.toLower)

/-- String.prototype.toUpperCase, on character lists. -/
def jsToUpper (s : String) : String :=
  String.mk (s.toList.map Char.toUpper)

/-- String.prototype.split with a single-character separator, on
character lists. -/
def jsSplit (s : String) (sep : Char) : List String :=
  go s.toList []
where
  go : List Char → List Char → List String
  | [], acc => [String.mk acc.reverse]
  | c :: t, acc =>
    if c == sep then String.mk acc.reverse :: go t [] else go t (c :: acc)

/-- BLOG_URL_PATTERNS of pageTypeDetector.js. -/
def BLOG_URL_PATTERNS : List Rx :=
  [Rx.litI "/blog/", Rx.litI "/post/", Rx.litI "/posts/", Rx.litI "/news/",
   Rx.litI "/article/", Rx.litI "/articles/",
   Rx.seqAll [Rx.ch '/', Rx.cset digitChar, Rx.cset digitChar, Rx.cset digitChar,
     Rx.cset digitChar, Rx.ch '/', Rx.cset digitChar, Rx.cset digitChar, Rx.ch '/']]

/-- SERVICE_URL_PATTERNS of pageTypeDetector.js. -/
def SERVICE_URL_PATTERNS : List Rx :=
  [Rx.litI "/service/", Rx.litI "/services/", Rx.litI "/our-services/",
   Rx.litI "/what-we-do/", Rx.litI "/solutions/",
   Rx.litI "/ac-", Rx.litI "/air-conditioning", Rx.litI "/heating",
   Rx.litI "/hvac", Rx.litI "/furnace", Rx.litI "/heat-pump", Rx.litI "/duct",
   Rx.litI "/thermostat", Rx.litI "/mini-split", Rx.litI "/repair/",
   Rx.litI "/installation/", Rx.litI "/maintenance/", Rx.litI "/tune-up",
   Rx.litI "/plumbing", Rx.litI "/electrical", Rx.litI "/roofing"]

/-- LOCATION_URL_PATTERNS of pageTypeDetector.js. -/
def LOCATION_URL_PATTERNS : List Rx :=
  [Rx.seqAll [Rx.litI "/location", Rx.quest (Rx.chI 's'), Rx.chI '/'],
   Rx.litI "/service-area",
   Rx.seqAll [Rx.litI "/area", Rx.quest (Rx.chI 's'), Rx.chI '-',
     Rx.quest (Rx.litI "we-"), Rx.litI "serve", Rx.quest (Rx.chI 'd')],
   Rx.litI "/cities/",
   Rx.litI "/near-me",
   Rx.seqAll [Rx.ch '/',
     Rx.altAll [Rx.litI "ac", Rx.litI "hvac", Rx.litI "heating",
       Rx.litI "cooling", Rx.litI "air-conditioning"],
     Rx.ch '-', Rx.rep1 (Rx.cset asciiLetter), Rx.ch '-', Rx.rep1 (Rx.cset asciiLetter)],
   Rx.seqAll [Rx.ch '/', Rx.rep1 (Rx.cset asciiLetter), Rx.ch '-',
     Rx.altAll [Rx.litI "ac", Rx.litI "hvac", Rx.litI "heating", Rx.litI "cooling"],
     Rx.ch '-']]

/-- SERVICE_KEYWORDS of pageTypeDetector.js. -/
def SERVICE_KEYWORDS : List String :=
  ["service", "our services", "what we offer", "how we help", "pricing",
   "get started", "contact us", "free consultation", "request a quote",
   "free estimate", "schedule service", "book appointment",
   "ac repair", "air conditioning", "heating repair", "hvac service",
   "furnace repair", "furnace installation", "heat pump", "duct cleaning",
   "emergency service", "24/7", "licensed", "certified technician",
   "same day service", "tune-up", "maintenance plan"]

/-- Service indicators in heading text (already lowercased by the
caller). -/
def headingServiceHit (t : String) : Bool :=
  jsIncludes t "service" || jsIncludes t "solution" || jsIncludes t "what we offer" ||
  jsIncludes t "repair" || jsIncludes t "installation" || jsIncludes t "maintenance" ||
  jsIncludes t "hvac" || jsIncludes t "air conditioning" || jsIncludes t "heating" ||
  jsIncludes t "why choose" || jsIncludes t "our process" || jsIncludes t "benefits"

/-- Article indicators in heading text. -/
def headingArticleHit (t : String) : Bool :=
  jsIncludes t "written by" || jsIncludes t "posted by" || jsIncludes t "author" ||
  jsIncludes t "published" || jsIncludes t "read more"

/-- Location indicators in heading text. -/
def headingLocationHit (t : String) : Bool :=
  jsIncludes t "serving" || jsIncludes t "service area" || jsIncludes t "near you" ||
  jsIncludes t "in your area" || jsIncludes t "local"

/-- Location phrase patterns applied to title and the first 1000
characters of the content (locationPatterns inside detect).  The first
two are case sensitive in the source, the rest carry the i flag. -/
def detectLocationPatterns : List Rx :=
  [Rx.seqAll [Rx.altAll [Rx.lit "in", Rx.lit "near", Rx.lit "serving"], Rx.wsP,
     Rx.cset asciiUpper, Rx.rep1 (Rx.cset asciiLower)],
   Rx.seqAll [Rx.cset asciiUpper, Rx.rep1 (Rx.cset asciiLower),
     Rx.quest (Rx.seqAll [Rx.wsP, Rx.cset asciiUpper, Rx.rep1 (Rx.cset asciiLower)]),
     Rx.wsP, Rx.altAll [Rx.lit "AC", Rx.lit "HVAC", Rx.lit "Heating", Rx.lit "Cooling"]],
   Rx.seqAll [Rx.litI "service", Rx.wsP, Rx.litI "area"],
   Rx.seqAll [Rx.litI "area", Rx.quest (Rx.chI 's'), Rx.wsP, Rx.litI "we", Rx.wsP,
     Rx.litI "serve"],
   Rx.seqAll [Rx.litI "location", Rx.quest (Rx.chI 's'), Rx.wsP, Rx.litI "served"],
   Rx.seqAll [Rx.litI "serving", Rx.wsP, Rx.litI "the", Rx.wsP, Rx.cset asciiLetter]]

/-- Accumulated scores of the classifier. -/
structure DetectScores where
  article : Nat
  service : Nat
  location : Nat
deriving Repr, BEq

/-- Additive scoring phase of detect in pageTypeDetector.js, bucket by
bucket in source order. -/
def detectScores (url : String) (pageData : PageData) : DetectScores :=
  let articleUrl := if BLOG_URL_PATTERNS.any (fun p => rxTest p url) then 3 else 0
  let serviceUrl := if SERVICE_URL_PATTERNS.any (fun p => rxTest p url) then 3 else 0
  let locationUrl := if LOCATION_URL_PATTERNS.any (fun p => rxTest p url) then 4 else 0
  let wpArticle :=
    match pageData.wordpressInfo with
    | some wi => if wi.postType == "post" then 3 else 0
    | none => 0
  let wpService :=
    match pageData.wordpressInfo with
    | some wi => if wi.postType == "page" then 1 else 0
    | none => 0
  let authorScore := if pageData.author != "" then 2 else 0
  let publishScore := if pageData.publishDate != "" then 2 else 0
  let categoriesScore := if !pageData.categories.isEmpty then 2 else 0
  let tagsScore := if !pageData.tags.isEmpty then 1 else 0
  let combinedText := jsToLower pageData.content ++ " " ++ jsToLower pageData.title
  let keywordScore := SERVICE_KEYWORDS.countP (fun k => jsIncludes combinedText (jsToLower k))
  let headingService :=
    2 * pageData.headings.countP (fun h => headingServiceHit (jsToLower h.text))
  let headingArticle :=
    2 * pageData.headings.countP (fun h => headingArticleHit (jsToLower h.text))
  let headingLocation :=
    2 * pageData.headings.countP (fun h => headingLocationHit (jsToLower h.text))
  let locationPhrases :=
    2 * detectLocationPatterns.countP (fun p =>
      rxTest p pageData.title || rxTest p (pageData.content.take 1000))
  let noPublish := if pageData.publishDate == "" then 1 else 0
  { article := articleUrl + wpArticle + authorScore + publishScore +
      categoriesScore + tagsScore + headingArticle,
    service := serviceUrl + wpService + keywordScore + headingService + noPublish,
    location := locationUrl + headingLocation + locationPhrases + noPublish }

/-- Final decision of detect: location must reach the maximum and the
absolute floor 4, otherwise service wins only on a strictly higher
score than article. -/
def detect (url : String) (pageData : PageData) : String :=
  let scores := detectScores url pageData
  let maxScore := max scores.article (max scores.service scores.location)
  if scores.location ≥ maxScore ∧ scores.location ≥ 4 then "location"
  else if scores.service > scores.article then "service"
  else "article"

/-- C7: the classifier returns location exactly when the location score
is the maximum of the three scores and at or above the fixed floor 4;
otherwise it returns service exactly when the service score strictly
exceeds the article score (a tie resolves to article); and it always
returns one of the three types. -/
theorem detect_decision_properties (url : String) (pd : PageData) :
    (detect url pd = "location" ↔
      (detectScores url pd).article ≤ (detectScores url pd).location ∧
      (detectScores url pd).service ≤ (detectScores url pd).location ∧
      4 ≤ (detectScores url pd).location) ∧
    (detect url pd ≠ "location" →
      (detect url pd = "service" ↔
        (detectScores url pd).article < (detectScores url pd).service)) ∧
    (detect url pd = "location" ∨ detect url pd = "service" ∨
      detect url pd = "article") := by
  unfold detect
  set s := detectScores url pd with hs
  have hmax : (max s.article (max s.service s.location) ≤ s.location ∧ 4 ≤ s.location) ↔
      (s.article ≤ s.location ∧ s.service ≤ s.location ∧ 4 ≤ s.location) := by
    constructor
    · intro h
      have h1 := h.1
      rw [Nat.max_le] at h1
      have h2 := h1.2
      rw [Nat.max_le] at h2
      exact ⟨h1.1, h2.1, h.2⟩
    · intro h
      refine ⟨?_, h.2.2⟩
      rw [Nat.max_le]
      refine ⟨h.1, ?_⟩
      rw [Nat.max_le]
      exact ⟨h.2.1, Nat.le_refl _⟩
  dsimp only []
  split_ifs with h1 h2
  · refine ⟨?_, ?_, Or.inl rfl⟩
    · simp only [true_iff]
      exact hmax.mp h1
    · intro hc
      exact absurd rfl hc
  · refine ⟨?_, ?_, Or.inr (Or.inl rfl)⟩
    · constructor
      · intro hc
        exact absurd hc (by decide)
      · intro hc
        exact absurd (hmax.mpr hc) h1
    · intro _
      simp only [true_iff]
      exact h2
  · refine ⟨?_, ?_, Or.inr (Or.inr rfl)⟩
    · constructor
      · intro hc
        exact absurd hc (by decide)
      · intro hc
        exact absurd (hmax.mpr hc) h1
    · intro _
      constructor
      · intro hc
        exact absurd hc (by decide)
      · intro hc
        exact absurd hc h2

/-- Witness for C7 at a concrete location-pattern URL with empty page
data. -/
theorem detect_decision_properties_witness :
    (detect "https://example.com/ac-repair-houston" {} = "location" ↔
      (detectScores "https://example.com/ac-repair-houston" {}).article ≤
        (detectScores "https://example.com/ac-repair-houston" {}).location ∧
      (detectScores "https://example.com/ac-repair-houston" {}).service ≤
        (detectScores "https://example.com/ac-repair-houston" {}).location ∧
      4 ≤ (detectScores "https://example.com/ac-repair-houston" {}).location) ∧
    (detect "https://example.com/ac-repair-houston" {} ≠ "location" →
      (detect "https://example.com/ac-repair-houston" {} = "service" ↔
        (detectScores "https://example.com/ac-repair-houston" {}).article <
          (detectScores "https://example.com/ac-repair-houston" {}).service)) ∧
    (detect "https://example.com/ac-repair-houston" {} = "location" ∨
      detect "https://example.com/ac-repair-houston" {} = "service" ∨
      detect "https://example.com/ac-repair-houston" {} = "article") :=
  detect_decision_properties "https://example.com/ac-repair-houston" {}

/-- Replace every maximal run of characters satisfying p by a single
replacement character (the behavior of String.replace with a
one-or-more character-class global regex). -/
def replaceRuns (p : Char → Bool) (rep : Char) (s : String) : String :=
  String.mk ((s.toList.foldl (fun (acc : List Char × Bool) c =>
    if p c then (if acc.2 then acc else (acc.1 ++ [rep], true))
    else (acc.1 ++ [c], false)) ([], false)).1)

/-- JavaScript String.prototype.trim, implemented on character lists so
that it evaluates inside the kernel. -/
def jsTrim (s : String) : String :=
  String.mk (((s.toList.dropWhile wsChar).reverse.dropWhile wsChar).reverse)

/-- cleanText of faq.js: collapse whitespace runs, collapse CR/LF runs,
trim. -/
def cleanText (text : String) : String :=
  if text == "" then ""
  else jsTrim (replaceRuns (fun c => c == '\r' || c == '\n') ' '
    (replaceRuns wsChar ' ' text))

/-- Question entity inside the FAQPage mainEntity list. -/
structure FaqQuestion where
  name : String
  answerText : String
deriving Repr, BEq, DecidableEq

/-- FAQPage schema produced by the FAQ builder. -/
structure FAQPageSchema where
  mainEntity : List FaqQuestion
deriving Repr, BEq, DecidableEq

/-- Validity filter of the FAQ builder: question and answer both truthy
and non-blank after trimming. -/
def validFaq (f : FaqPair) : Bool :=
  f.question != "" && f.answer != "" && jsTrim f.question != "" && jsTrim f.answer != ""

/-- FAQ builder generate of src/schemas/faq.js: null on no input, keep
valid pairs, cap at 10, null when zero survive. -/
def faqGenerate (faqs : List FaqPair) : Option FAQPageSchema :=
  if faqs.isEmpty then none
  else
    let validFaqs := (faqs.filter validFaq).take 10
    if validFaqs.isEmpty then none
    else some ⟨validFaqs.map (fun f => ⟨cleanText f.question, cleanText f.answer⟩)⟩

/-- C8: the FAQ builder keeps exactly the pairs whose question and
answer are both non-blank after trimming, caps the result at 10
entries, returns null exactly when zero pairs survive (in particular on
empty input), and the given two-pair scenario yields exactly one
mainEntity item built from the second pair. -/
theorem faq_builder_filters_caps_and_nulls :
    faqGenerate [] = none ∧
    faqGenerate [⟨"", "x"⟩, ⟨"Q?", "A."⟩] = some ⟨[⟨"Q?", "A."⟩]⟩ ∧
    (∀ faqs, faqGenerate faqs = none ↔ faqs.filter validFaq = []) ∧
    (∀ faqs ent, faqGenerate faqs = some ent →
      ent.mainEntity = ((faqs.filter validFaq).take 10).map
        (fun f => ⟨cleanText f.question, cleanText f.answer⟩) ∧
      ent.mainEntity.length ≤ 10) := by
  refine ⟨rfl, by decide, ?_, ?_⟩
  · intro faqs
    unfold faqGenerate
    by_cases hempty : faqs.isEmpty = true
    · rw [if_pos hempty]
      have : faqs = [] := List.isEmpty_iff.mp hempty
      subst this
      exact ⟨fun _ => rfl, fun _ => rfl⟩
    · rw [if_neg hempty]
      dsimp only []
      by_cases hv : ((faqs.filter validFaq).take 10).isEmpty = true
      · rw [if_pos hv]
        simp only [true_iff]
        rcases List.take_eq_nil_iff.mp (List.isEmpty_iff.mp hv) with h | h
        · exact absurd h (by decide)
        · exact h
      · rw [if_neg hv]
        constructor
        · intro hc
          exact Option.noConfusion hc
        · intro hc
          rw [hc] at hv
          exact absurd (by decide) hv
  · intro faqs ent h
    unfold faqGenerate at h
    by_cases hempty : faqs.isEmpty = true
    · rw [if_pos hempty] at h
      exact absurd h (by simp)
    · rw [if_neg hempty] at h
      dsimp only [] at h
      by_cases hv : ((faqs.filter validFaq).take 10).isEmpty = true
      · rw [if_pos hv] at h
        exact absurd h (by simp)
      · rw [if_neg hv] at h
        have hent := Option.some.inj h
        constructor
        · rw [← hent]
        · rw [← hent]
          dsimp only []
          rw [List.length_map]
          exact List.length_take_le 10 _

/-- Witness for C8 applying the theorem at a concrete one-pair input. -/
theorem faq_builder_filters_caps_and_nulls_witness :
    faqGenerate [⟨"Q", "A"⟩] = some ⟨[⟨"Q", "A"⟩]⟩ ∧
    ((⟨[⟨"Q", "A"⟩]⟩ : FAQPageSchema).mainEntity =
      ((([⟨"Q", "A"⟩] : List FaqPair).filter validFaq).take 10).map
        (fun f => ⟨cleanText f.question, cleanText f.answer⟩) ∧
     (⟨[⟨"Q", "A"⟩]⟩ : FAQPageSchema).mainEntity.length ≤ 10) :=
  ⟨by decide,
   faq_builder_filters_caps_and_nulls.2.2.2 [⟨"Q", "A"⟩] ⟨[⟨"Q", "A"⟩]⟩ (by decide)⟩

/-- Structured postal address; an absent field is the empty string
(JavaScript falsy / key not set, which the modelled code only ever
distinguishes by truthiness). -/
structure Address where
  streetAddress : String := ""
  addressLocality : String := ""
  addressRegion : String := ""
  postalCode : String := ""
  addressCountry : String := ""
deriving Repr, BEq, DecidableEq

/-- Organization info consumed by the builders. -/
structure OrgInfo where
  name : String := ""
  url : String := ""
  logo : String := ""
  phone : String := ""
deriving Repr, BEq, DecidableEq

/-- City reference entity (@type City plus a name). -/
structure CityRef where
  name : String
deriving Repr, BEq, DecidableEq

/-- areaServed value shape: absent, a single City object, or a City
array. -/
inductive AreaServedVal where
  | nothing
  | one (c : CityRef)
  | many (cs : List CityRef)
deriving Repr, BEq, DecidableEq

/-- ImageObject entity carrying a url. -/
structure ImageObj where
  url : String
deriving Repr, BEq, DecidableEq

/-- Join a list of strings with a separator (Array.prototype.join). -/
def joinSep (sep : String) : List String → String
  | [] => ""
  | x :: rest => rest.foldl (fun acc y => acc ++ sep ++ y) x

/-- Uppercase every word-initial character, the
replace backslash-b backslash-w global pattern of formatLocationName. -/
def titleizeWords (s : String) : String :=
  String.mk ((s.toList.foldl (fun (acc : List Char × Bool) c =>
    if jsWordChar c && !acc.2 then (acc.1 ++ [c.toUpper], true)
    else (acc.1 ++ [c], jsWordChar c)) ([], false)).1)

/-- Match the characters of a city name (a regex literal where a dot
matches any character) case-insensitively against a prefix of the
text. -/
def matchCityChars : List Char → List Char → Option (List Char)
  | [], rest => some rest
  | _ :: _, [] => none
  | p :: ps, c :: t =>
    if p == '.' || p.toLower == c.toLower then matchCityChars ps t else none

/-- Test of the dynamically built pattern backslash-b city backslash-b
with the i flag: the city must occur with word boundaries on both
sides (every city name starts and ends with a letter). -/
def cityBoundaryTest (city text : String) : Bool :=
  let cs := text.toList
  let pat := city.toList
  (List.range (cs.length + 1)).any (fun i =>
    match matchCityChars pat (cs.drop i) with
    | none => false
    | some rest =>
      (i == 0 || !jsWordChar (cs.getD (i - 1) ' ')) &&
      (match rest with
       | [] => true
       | c :: _ => !jsWordChar c))

/-- truncate of the service/article templates: keep strings within the
limit, otherwise cut and add an ellipsis. -/
def truncate (str : String) (maxLength : Nat) : String :=
  if str == "" then ""
  else if str.length ≤ maxLength then str
  else str.take (maxLength - 3) ++ "..."

namespace Svc

/-- CANADIAN_PROVINCES of the service template. -/
def CANADIAN_PROVINCES : List String :=
  ["ON", "QC", "BC", "AB", "MB", "SK", "NS", "NB", "NL", "PE", "NT", "YT", "NU"]

/-- US_STATES of the service template. -/
def US_STATES : List String :=
  ["AL", "AK", "AZ", "AR", "CA", "CO", "CT", "DE", "FL", "GA", "HI", "ID", "IL",
   "IN", "IA", "KS", "KY", "LA", "ME", "MD", "MA", "MI", "MN", "MS", "MO", "MT",
   "NE", "NV", "NH", "NJ", "NM", "NY", "NC", "ND", "OH", "OK", "OR", "PA", "RI",
   "SC", "SD", "TN", "TX", "UT", "VT", "VA", "WA", "WV", "WI", "WY", "DC"]

/-- CANADIAN_CITIES of the service template, by province. -/
def CANADIAN_CITIES : List (String × List String) :=
  [("ON", ["Hamilton", "Toronto", "Ottawa", "Mississauga", "Brampton", "Burlington",
    "Oakville", "Stoney Creek", "Ancaster", "Dundas", "Waterdown", "Grimsby",
    "St. Catharines", "St Catharines", "Niagara Falls", "London", "Kitchener",
    "Waterloo", "Cambridge", "Guelph", "Binbrook", "Brantford"]),
   ("BC", ["Vancouver", "Victoria", "Burnaby", "Surrey", "Richmond", "Kelowna"]),
   ("AB", ["Calgary", "Edmonton", "Red Deer", "Lethbridge"]),
   ("QC", ["Montreal", "Quebec City", "Laval", "Gatineau"])]

/-- US_CITIES of the service template, by state. -/
def US_CITIES : List (String × List String) :=
  [("TX", ["Houston", "Dallas", "Austin", "San Antonio", "Fort Worth", "El Paso",
    "Arlington", "Plano"]),
   ("CA", ["Los Angeles", "San Diego", "San Jose", "San Francisco", "Sacramento",
    "Long Beach", "Oakland"]),
   ("FL", ["Miami", "Tampa", "Orlando", "Jacksonville", "Fort Lauderdale",
    "St. Petersburg"]),
   ("NY", ["New York", "Brooklyn", "Buffalo", "Rochester", "Syracuse", "Albany"]),
   ("IL", ["Chicago", "Aurora", "Naperville", "Joliet", "Rockford"]),
   ("PA", ["Philadelphia", "Pittsburgh", "Allentown", "Erie"]),
   ("AZ", ["Phoenix", "Tucson", "Mesa", "Chandler", "Scottsdale"]),
   ("GA", ["Atlanta", "Augusta", "Columbus", "Savannah"]),
   ("NC", ["Charlotte", "Raleigh", "Greensboro", "Durham"]),
   ("OH", ["Columbus", "Cleveland", "Cincinnati", "Toledo", "Akron"]),
   ("MI", ["Detroit", "Grand Rapids", "Ann Arbor", "Lansing"]),
   ("TN", ["Nashville", "Memphis", "Knoxville", "Chattanooga"]),
   ("WA", ["Seattle", "Spokane", "Tacoma", "Bellevue"]),
   ("CO", ["Denver", "Colorado Springs", "Aurora", "Fort Collins"]),
   ("MA", ["Boston", "Worcester", "Springfield", "Cambridge"]),
   ("NV", ["Las Vegas", "Henderson", "Reno"]),
   ("IN", ["Indianapolis", "Fort Wayne", "Evansville"]),
   ("MO", ["Kansas City", "St. Louis", "Springfield"]),
   ("MD", ["Baltimore", "Frederick", "Rockville"]),
   ("VA", ["Virginia Beach", "Norfolk", "Richmond", "Alexandria"])]

/-- Canadian postal code pattern, anchored: letter digit letter,
optional space, digit letter digit (i flag). -/
def canadianPostalRx : Rx :=
  Rx.seqAll [Rx.cset asciiLetter, Rx.cset digitChar, Rx.cset asciiLetter,
    Rx.quest (Rx.cset wsChar), Rx.cset digitChar, Rx.cset asciiLetter,
    Rx.cset digitChar]

/-- US ZIP pattern, anchored: five digits with an optional dash-four
extension. -/
def usZipRx : Rx :=
  Rx.seqAll [Rx.cset digitChar, Rx.cset digitChar, Rx.cset digitChar,
    Rx.cset digitChar, Rx.cset digitChar,
    Rx.quest (Rx.seqAll [Rx.ch '-', Rx.cset digitChar, Rx.cset digitChar,
      Rx.cset digitChar, Rx.cset digitChar])]

/-- detectCountryFromAreas of the service template: structured address
first (explicit country, postal-code format, region table), then a
known-city scan of the joined area names, defaulting to US. -/
def detectCountryFromAreas (address : Option Address)
    (areaServedArray : List String) : String :=
  let fromAddress : Option String :=
    match address with
    | none => none
    | some a =>
      if a.addressCountry != "" then some a.addressCountry
      else if a.postalCode != "" && rxMatchesFull canadianPostalRx a.postalCode then
        some "CA"
      else if a.postalCode != "" && rxMatchesFull usZipRx a.postalCode then
        some "US"
      else if a.addressRegion != "" then
        let region := jsToUpper a.addressRegion
        if CANADIAN_PROVINCES.contains region then some "CA"
        else if US_STATES.contains region then some "US"
        else none
      else none
  match fromAddress with
  | some c => c
  | none =>
    let allText := jsToLower (joinSep " " areaServedArray)
    if CANADIAN_CITIES.any (fun pc => pc.2.any (fun city =>
        jsIncludes allText (jsToLower city))) then "CA"
    else if US_CITIES.any (fun sc => sc.2.any (fun city =>
        jsIncludes allText (jsToLower city))) then "US"
    else "US"

/-- detectRegionFromAreas of the service template. -/
def detectRegionFromAreas (address : Option Address)
    (areaServedArray : List String) (country : String) : String :=
  match address with
  | some a =>
    if a.addressRegion != "" then a.addressRegion
    else detectRegionScan areaServedArray country
  | none => detectRegionScan areaServedArray country
where
  detectRegionScan (areaServedArray : List String) (country : String) : String :=
    let allText := jsToLower (joinSep " " areaServedArray)
    if country == "CA" then
      match CANADIAN_CITIES.findSome? (fun pc =>
        if pc.2.any (fun city => jsIncludes allText (jsToLower city)) then some pc.1
        else none) with
      | some province => province
      | none => ""
    else if country == "US" then
      match US_CITIES.findSome? (fun sc =>
        if sc.2.any (fun city => jsIncludes allText (jsToLower city)) then some sc.1
        else none) with
      | some state => state
      | none => ""
    else ""

/-- Service type detection result. -/
structure ServiceInfo where
  type : String
  category : String
  name : String
deriving Repr, BEq, DecidableEq

/-- HVAC and home-services phrase patterns of extractServiceType, in
source order (most specific first), each with its service type,
category and display name.  All source patterns carry the i flag. -/
def servicePatterns : List (Rx × String × String × String) :=
  let li := Rx.litI
  let sq := Rx.seqAll
  let al := Rx.altAll
  let w := Rx.wsS
  let wd := Rx.wsDashS
  [(al [sq [li "ac", w, li "repair"],
      sq [li "air", w, li "condition", al [li "er", li "ing"], w, li "repair"]],
    "Air Conditioning Repair", "HVAC", "Air Conditioning Repair Service"),
   (al [sq [li "ac", w, li "install"],
      sq [li "air", w, li "condition", al [li "er", li "ing"], w, li "install"]],
    "Air Conditioning Installation", "HVAC", "AC Installation Service"),
   (al [sq [li "ac", w, li "maintenance"],
      sq [li "air", w, li "condition", al [li "er", li "ing"], w, li "maintenance"]],
    "Air Conditioning Maintenance", "HVAC", "AC Maintenance Service"),
   (al [sq [li "ac", w, li "tune", wd, li "up"],
      sq [li "air", w, li "condition", al [li "er", li "ing"], w, li "tune", wd, li "up"]],
    "Air Conditioning Tune-Up", "HVAC", "AC Tune-Up Service"),
   (al [sq [li "ac", w, li "replacement"],
      sq [li "air", w, li "condition", al [li "er", li "ing"], w, li "replacement"]],
    "Air Conditioning Replacement", "HVAC", "AC Replacement Service"),
   (sq [li "central", w, li "air"],
    "Central Air Conditioning Service", "HVAC", "Central Air Conditioning Service"),
   (sq [li "heat", al [li "er", li "ing"], w, li "repair"],
    "Heating Repair", "HVAC", "Heating Repair Service"),
   (sq [li "heat", al [li "er", li "ing"], w, li "install"],
    "Heating Installation", "HVAC", "Heating Installation Service"),
   (sq [li "heat", al [li "er", li "ing"], w, li "maintenance"],
    "Heating Maintenance", "HVAC", "Heating Maintenance Service"),
   (sq [li "furnace", w, li "repair"],
    "Furnace Repair", "HVAC", "Furnace Repair Service"),
   (sq [li "furnace", w, li "install"],
    "Furnace Installation", "HVAC", "Furnace Installation Service"),
   (al [sq [li "furnace", w, li "maintenance"],
      sq [li "furnace", w, li "tune", wd, li "up"]],
    "Furnace Maintenance", "HVAC", "Furnace Maintenance Service"),
   (sq [li "furnace", w, li "replacement"],
    "Furnace Replacement", "HVAC", "Furnace Replacement Service"),
   (sq [li "boiler", w, li "repair"],
    "Boiler Repair", "HVAC", "Boiler Repair Service"),
   (sq [li "boiler", w, li "install"],
    "Boiler Installation", "HVAC", "Boiler Installation Service"),
   (sq [li "heat", w, li "pump", w, li "repair"],
    "Heat Pump Repair", "HVAC", "Heat Pump Repair Service"),
   (sq [li "heat", w, li "pump", w, li "install"],
    "Heat Pump Installation", "HVAC", "Heat Pump Installation Service"),
   (sq [li "heat", w, li "pump", w, li "maintenance"],
    "Heat Pump Maintenance", "HVAC", "Heat Pump Maintenance Service"),
   (sq [li "heat", w, li "pump"],
    "Heat Pump Service", "HVAC", "Heat Pump Service"),
   (sq [li "duct", w, li "clean"],
    "Duct Cleaning", "HVAC", "Air Duct Cleaning Service"),
   (sq [li "duct", w, li "repair"],
    "Duct Repair", "HVAC", "Ductwork Repair Service"),
   (al [sq [li "duct", w, li "install"], sq [li "ductwork", w, li "install"]],
    "Duct Installation", "HVAC", "Ductwork Installation Service"),
   (sq [li "duct", w, li "seal"],
    "Duct Sealing", "HVAC", "Duct Sealing Service"),
   (al [sq [li "indoor", w, li "air", w, li "quality"], li "iaq"],
    "Indoor Air Quality", "HVAC", "Indoor Air Quality Service"),
   (sq [li "air", w, li "purif"],
    "Air Purification", "HVAC", "Air Purification Service"),
   (sq [li "air", w, li "filter"],
    "Air Filtration", "HVAC", "Air Filtration Service"),
   (li "humidifier",
    "Humidifier Service", "HVAC", "Humidifier Installation & Service"),
   (li "dehumidifier",
    "Dehumidifier Service", "HVAC", "Dehumidifier Installation & Service"),
   (al [sq [li "uv", w, li "light"], sq [li "uv", w, li "air"]],
    "UV Air Purification", "HVAC", "UV Air Purification Service"),
   (sq [li "thermostat", w, li "install"],
    "Thermostat Installation", "HVAC", "Thermostat Installation Service"),
   (sq [li "smart", w, li "thermostat"],
    "Smart Thermostat Installation", "HVAC", "Smart Thermostat Installation Service"),
   (li "thermostat",
    "Thermostat Service", "HVAC", "Thermostat Service"),
   (sq [li "mini", wd, li "split", w, li "install"],
    "Mini Split Installation", "HVAC", "Ductless Mini Split Installation"),
   (sq [li "mini", wd, li "split", w, li "repair"],
    "Mini Split Repair", "HVAC", "Ductless Mini Split Repair"),
   (al [sq [li "mini", wd, li "split"], li "ductless"],
    "Ductless HVAC Service", "HVAC", "Ductless Mini Split Service"),
   (sq [li "emergency", w, al [li "hvac", li "ac", li "heat", li "air"]],
    "Emergency HVAC Service", "HVAC", "24/7 Emergency HVAC Service"),
   (al [sq [li "24", Rx.star (Rx.cset (fun c => wsChar c || c == '/')), li "7"],
      sq [li "after", w, li "hours"]],
    "Emergency HVAC Service", "HVAC", "24/7 Emergency HVAC Service"),
   (sq [li "hvac", w, li "repair"],
    "HVAC Repair", "HVAC", "HVAC Repair Service"),
   (sq [li "hvac", w, li "install"],
    "HVAC Installation", "HVAC", "HVAC Installation Service"),
   (sq [li "hvac", w, li "maintenance"],
    "HVAC Maintenance", "HVAC", "HVAC Maintenance Service"),
   (al [li "refrigerant", li "freon"],
    "Refrigerant Service", "HVAC", "Refrigerant Recharge Service"),
   (li "compressor",
    "Compressor Service", "HVAC", "AC Compressor Service"),
   (sq [li "evaporator", w, li "coil"],
    "Evaporator Coil Service", "HVAC", "Evaporator Coil Service"),
   (li "condenser",
    "Condenser Service", "HVAC", "Condenser Service"),
   (sq [li "plumb", al [li "ing", li "er"]],
    "Plumbing Service", "Home Services", "Plumbing Service"),
   (sq [li "electric", al [li "al", li "ian"]],
    "Electrical Service", "Home Services", "Electrical Service"),
   (sq [li "roof", Rx.quest (li "ing")],
    "Roofing Service", "Home Services", "Roofing Service"),
   (sq [li "water", w, li "heater"],
    "Water Heater Service", "Home Services", "Water Heater Service"),
   (li "insulation",
    "Insulation Service", "Home Services", "Insulation Service"),
   (sq [li "commercial", w, al [li "hvac", li "ac", li "heat"]],
    "Commercial HVAC Service", "Commercial HVAC", "Commercial HVAC Service"),
   (al [li "hvac", li "heating", li "cooling", sq [li "air", w, li "condition"]],
    "HVAC Service", "HVAC", "HVAC Service")]

/-- extractServiceType of the service template: first matching pattern
wins, else the page title stands in as the service type. -/
def extractServiceType (pageData : PageData) : ServiceInfo :=
  let title := pageData.title
  let content := pageData.content
  let headings := pageData.headings
  let combinedText :=
    title ++ " " ++ content ++ " " ++ joinSep " " (headings.map (fun h => h.text))
  match servicePatterns.find? (fun e => rxTest e.1 combinedText) with
  | some e => ⟨e.2.1, e.2.2.1, e.2.2.2⟩
  | none => ⟨title, "Service", title⟩

/-- Location patterns of extractLocationFromPage, with their capture
group (all carry the i flag, so letter classes are caseless). -/
def locationPatternsPage : List Rx :=
  let letter : Rx := Rx.cset asciiLetter
  let word : Rx := Rx.cat letter (Rx.rep1 letter)
  let azDash : Rx := Rx.rep1 (Rx.cset (fun c => asciiLetter c || c == '-'))
  [Rx.seqAll [Rx.altAll [Rx.litI "in", Rx.litI "near", Rx.litI "serving"], Rx.wsP,
     Rx.grp (Rx.seqAll [word, Rx.quest (Rx.seqAll [Rx.wsP, word])])],
   Rx.seqAll [Rx.grp (Rx.seqAll [word, Rx.quest (Rx.seqAll [Rx.wsP, word])]), Rx.wsP,
     Rx.altAll [Rx.litI "ac", Rx.litI "hvac", Rx.litI "heating", Rx.litI "cooling",
       Rx.litI "air", Rx.litI "plumbing", Rx.litI "electric"]],
   Rx.seqAll [Rx.ch '/', Rx.litI "location", Rx.quest (Rx.chI 's'), Rx.ch '/',
     Rx.grp azDash],
   Rx.seqAll [Rx.ch '/', Rx.grp azDash, Rx.ch '-',
     Rx.altAll [Rx.litI "ac", Rx.litI "hvac", Rx.litI "heating", Rx.litI "cooling",
       Rx.litI "plumbing"]],
   Rx.seqAll [Rx.ch '/',
     Rx.altAll [Rx.litI "ac", Rx.litI "hvac", Rx.litI "heating", Rx.litI "cooling",
       Rx.litI "plumbing"], Rx.ch '-', Rx.grp azDash],
   Rx.seqAll [Rx.litI "/service-area/", Rx.grp azDash]]

/-- formatLocationName of the service template: null on empty input,
else dashes become spaces, words are titleized and the result is
trimmed. -/
def formatLocationName (name : String) : Option String :=
  if name == "" then none
  else some (jsTrim (titleizeWords
    (String.mk (name.toList.map (fun c => if c == '-' then ' ' else c)))))

/-- extractLocationFromPage of the service template: first a known-city
word-boundary scan over title plus content (US cities first, then
Canadian), then the location patterns tried on the title, then on the
URL. -/
def extractLocationFromPage (pageData : PageData) : Option String :=
  let title := pageData.title
  let url := pageData.url
  let content := pageData.content
  let allCanadianCities := CANADIAN_CITIES.flatMap (fun pc => pc.2)
  let allUSCities := US_CITIES.flatMap (fun sc => sc.2)
  let commonCities := allUSCities ++ allCanadianCities
  let combinedText := title ++ " " ++ content
  match commonCities.find? (fun city => cityBoundaryTest city combinedText) with
  | some city => some city
  | none =>
    match locationPatternsPage.findSome? (fun p => rxMatch p title) with
    | some cap => formatLocationName (cap.getD "")
    | none =>
      match locationPatternsPage.findSome? (fun p => rxMatch p url) with
      | some cap => formatLocationName (cap.getD "")
      | none => none

/-- Options accepted by the service builder. -/
structure ServiceOptions where
  areaServed : String := ""
  businessType : String := ""
  address : Option Address := none
  phone : String := ""
deriving Repr

/-- Provider object nested in the Service schema. -/
structure ServiceProvider where
  atType : String
  atId : String
  name : String
  url : String
  address : Address
  areaServed : Option (List CityRef) := none
  telephone : String := ""
  logo : Option ImageObj := none
deriving Repr, BEq, DecidableEq

/-- Service schema produced by the service builder.  brand carries the
brand name; offersAreaServed mirrors the schema areaServed inside the
offers block; potentialActionUrl is the ReserveAction EntryPoint
urlTemplate. -/
structure ServiceSchema where
  atType : String
  atId : String
  name : String
  description : String
  url : String
  serviceType : String
  provider : ServiceProvider
  image : Option ImageObj := none
  areaServed : AreaServedVal := .nothing
  brand : String
  category : String := ""
  offersAreaServed : AreaServedVal := .nothing
  potentialActionUrl : String
deriving Repr, BEq, DecidableEq

/-- generate of src/schemas/service.js (the Service builder). -/
def generate (pageData : PageData) (orgInfo : OrgInfo)
    (options : ServiceOptions) : ServiceSchema :=
  let serviceInfo := extractServiceType pageData
  let areaServedArray0 : List String :=
    if options.areaServed != "" then
      ((jsSplit options.areaServed ',').map jsTrim).filter (fun a => a != "")
    else []
  let areaServedArray : List String :=
    if areaServedArray0.isEmpty then
      match extractLocationFromPage pageData with
      | some loc => [loc]
      | none => []
    else areaServedArray0
  let detectedCountry := detectCountryFromAreas options.address areaServedArray
  let detectedRegion :=
    detectRegionFromAreas options.address areaServedArray detectedCountry
  let areaAddress : Address :=
    let primaryArea := areaServedArray.headD ""
    let parts := (jsSplit primaryArea ',').map jsTrim
    { addressLocality := parts.headD "",
      addressRegion :=
        (if parts.getD 1 "" != "" then parts.getD 1 "" else detectedRegion),
      addressCountry := detectedCountry }
  let minimalAddress : Address :=
    { addressCountry := detectedCountry, addressRegion := detectedRegion }
  let providerAddress : Address :=
    match options.address with
    | some addr =>
      if addr.addressLocality != "" then
        { streetAddress := addr.streetAddress,
          addressLocality := addr.addressLocality,
          addressRegion :=
            (if addr.addressRegion != "" then addr.addressRegion else detectedRegion),
          postalCode := addr.postalCode,
          addressCountry :=
            (if addr.addressCountry != "" then addr.addressCountry
             else detectedCountry) }
      else if !areaServedArray.isEmpty then areaAddress
      else minimalAddress
    | none =>
      if !areaServedArray.isEmpty then areaAddress
      else minimalAddress
  let provider : ServiceProvider :=
    { atType := (if options.businessType != "" then options.businessType
        else "HVACBusiness"),
      atId := orgInfo.url ++ "#localbusiness",
      name := orgInfo.name,
      url := orgInfo.url,
      address := providerAddress,
      areaServed :=
        (if !areaServedArray.isEmpty then
          some (areaServedArray.map (fun area => ⟨area⟩))
         else none),
      telephone := (if options.phone != "" then options.phone else pageData.phone),
      logo := (if orgInfo.logo != "" then some ⟨orgInfo.logo⟩ else none) }
  let areaServedVal : AreaServedVal :=
    if areaServedArray.length == 1 then .one ⟨areaServedArray.headD ""⟩
    else if areaServedArray.length > 1 then
      .many (areaServedArray.map (fun area => ⟨area⟩))
    else .nothing
  { atType := "Service",
    atId := pageData.url ++ "#service",
    name := (if serviceInfo.name != "" then serviceInfo.name else pageData.title),
    description := truncate pageData.description 200,
    url := pageData.url,
    serviceType := serviceInfo.type,
    provider := provider,
    image := (if pageData.featuredImage != "" then some ⟨pageData.featuredImage⟩
      else none),
    areaServed := areaServedVal,
    brand := orgInfo.name,
    category := serviceInfo.category,
    offersAreaServed := areaServedVal,
    potentialActionUrl := orgInfo.url ++ "/contact" }

end Svc

namespace LB

/-- CANADIAN_PROVINCES of the localBusiness template: code to full
name. -/
def CANADIAN_PROVINCES : List (String × String) :=
  [("ON", "Ontario"), ("QC", "Quebec"), ("BC", "British Columbia"),
   ("AB", "Alberta"), ("MB", "Manitoba"), ("SK", "Saskatchewan"),
   ("NS", "Nova Scotia"), ("NB", "New Brunswick"), ("NL", "Newfoundland"),
   ("PE", "Prince Edward Island"), ("NT", "Northwest Territories"),
   ("YT", "Yukon"), ("NU", "Nunavut")]

/-- US_STATES of the localBusiness template. -/
def US_STATES : List String :=
  ["AL", "AK", "AZ", "AR", "CA", "CO", "CT", "DE", "FL", "GA", "HI", "ID", "IL",
   "IN", "IA", "KS", "KY", "LA", "ME", "MD", "MA", "MI", "MN", "MS", "MO", "MT",
   "NE", "NV", "NH", "NJ", "NM", "NY", "NC", "ND", "OH", "OK", "OR", "PA", "RI",
   "SC", "SD", "TN", "TX", "UT", "VT", "VA", "WA", "WV", "WI", "WY", "DC"]

/-- CANADIAN_CITIES of the localBusiness template, by province. -/
def CANADIAN_CITIES : List (String × List String) :=
  [("ON", ["Hamilton", "Toronto", "Ottawa", "Mississauga", "Brampton", "Burlington",
    "Oakville", "Stoney Creek", "Ancaster", "Dundas", "Waterdown", "Grimsby",
    "St. Catharines", "St Catharines", "Niagara Falls", "Niagara", "London",
    "Kitchener", "Waterloo", "Cambridge", "Guelph", "Binbrook", "Caledonia",
    "Brantford", "Milton", "Georgetown", "Markham", "Vaughan", "Richmond Hill"]),
   ("BC", ["Vancouver", "Victoria", "Burnaby", "Surrey", "Richmond", "Kelowna",
    "Abbotsford"]),
   ("AB", ["Calgary", "Edmonton", "Red Deer", "Lethbridge", "Medicine Hat"]),
   ("QC", ["Montreal", "Quebec City", "Laval", "Gatineau", "Longueuil"])]

/-- US_CITIES of the localBusiness template, by state. -/
def US_CITIES : List (String × List String) :=
  [("TX", ["Houston", "Dallas", "Austin", "San Antonio", "Fort Worth", "El Paso",
    "Arlington", "Plano", "Frisco"]),
   ("CA", ["Los Angeles", "San Diego", "San Jose", "San Francisco", "Fresno",
    "Sacramento", "Long Beach", "Oakland"]),
   ("FL", ["Miami", "Tampa", "Orlando", "Jacksonville", "Fort Lauderdale",
    "St. Petersburg", "Hialeah"]),
   ("NY", ["New York", "Brooklyn", "Buffalo", "Rochester", "Syracuse", "Albany",
    "Yonkers"]),
   ("IL", ["Chicago", "Aurora", "Naperville", "Joliet", "Rockford", "Springfield"]),
   ("PA", ["Philadelphia", "Pittsburgh", "Allentown", "Erie", "Reading"]),
   ("AZ", ["Phoenix", "Tucson", "Mesa", "Chandler", "Scottsdale", "Gilbert",
    "Tempe"]),
   ("GA", ["Atlanta", "Augusta", "Columbus", "Savannah", "Athens", "Macon"]),
   ("NC", ["Charlotte", "Raleigh", "Greensboro", "Durham", "Winston-Salem",
    "Fayetteville"]),
   ("OH", ["Columbus", "Cleveland", "Cincinnati", "Toledo", "Akron", "Dayton"]),
   ("MI", ["Detroit", "Grand Rapids", "Warren", "Sterling Heights", "Ann Arbor",
    "Lansing"]),
   ("TN", ["Nashville", "Memphis", "Knoxville", "Chattanooga", "Clarksville"]),
   ("WA", ["Seattle", "Spokane", "Tacoma", "Vancouver", "Bellevue", "Kent"]),
   ("CO", ["Denver", "Colorado Springs", "Aurora", "Fort Collins", "Lakewood",
    "Boulder"]),
   ("MA", ["Boston", "Worcester", "Springfield", "Cambridge", "Lowell"]),
   ("NV", ["Las Vegas", "Henderson", "Reno", "North Las Vegas", "Sparks"]),
   ("IN", ["Indianapolis", "Fort Wayne", "Evansville", "South Bend", "Carmel"]),
   ("MO", ["Kansas City", "St. Louis", "Springfield", "Columbia", "Independence"]),
   ("MD", ["Baltimore", "Frederick", "Rockville", "Gaithersburg", "Bowie"]),
   ("WI", ["Milwaukee", "Madison", "Green Bay", "Kenosha", "Racine"]),
   ("MN", ["Minneapolis", "St. Paul", "Rochester", "Duluth", "Bloomington"]),
   ("OK", ["Oklahoma City", "Tulsa", "Norman", "Broken Arrow", "Edmond"]),
   ("OR", ["Portland", "Salem", "Eugene", "Gresham", "Hillsboro"]),
   ("NJ", ["Newark", "Jersey City", "Paterson", "Elizabeth", "Edison"]),
   ("VA", ["Virginia Beach", "Norfolk", "Chesapeake", "Richmond", "Newport News",
    "Alexandria"]),
   ("LA", ["New Orleans", "Baton Rouge", "Shreveport", "Lafayette", "Lake Charles"]),
   ("KY", ["Louisville", "Lexington", "Bowling Green", "Owensboro", "Covington"]),
   ("SC", ["Charleston", "Columbia", "North Charleston", "Mount Pleasant",
    "Greenville"]),
   ("AL", ["Birmingham", "Montgomery", "Huntsville", "Mobile", "Tuscaloosa"]),
   ("UT", ["Salt Lake City", "West Valley City", "Provo", "West Jordan", "Orem"])]

/-- detectCountry of the localBusiness template: explicit country,
postal-code format, region (province code, province full name or US
state), then a known-city scan of service areas plus the primary area,
defaulting to US. -/
def detectCountry (address : Option Address) (serviceAreas : List String)
    (primaryArea : String) : String :=
  let fromAddress : Option String :=
    match address with
    | none => none
    | some a =>
      if a.addressCountry != "" then some a.addressCountry
      else if a.postalCode != "" && rxMatchesFull Svc.canadianPostalRx a.postalCode then
        some "CA"
      else if a.postalCode != "" && rxMatchesFull Svc.usZipRx a.postalCode then
        some "US"
      else if a.addressRegion != "" then
        let region := jsToUpper a.addressRegion
        if (CANADIAN_PROVINCES.any (fun p => p.1 == region)) ||
            (CANADIAN_PROVINCES.any (fun p => jsToUpper p.2 == region)) then some "CA"
        else if US_STATES.contains region then some "US"
        else none
      else none
  match fromAddress with
  | some c => c
  | none =>
    let allText := jsToLower (joinSep " " (serviceAreas ++ [primaryArea]))
    if CANADIAN_CITIES.any (fun pc => pc.2.any (fun city =>
        jsIncludes allText (jsToLower city))) then "CA"
    else if US_CITIES.any (fun sc => sc.2.any (fun city =>
        jsIncludes allText (jsToLower city))) then "US"
    else "US"

/-- detectRegion of the localBusiness template. -/
def detectRegion (address : Option Address) (serviceAreas : List String)
    (primaryArea : String) (country : String) : String :=
  match address with
  | some a =>
    if a.addressRegion != "" then a.addressRegion
    else detectRegionScan serviceAreas primaryArea country
  | none => detectRegionScan serviceAreas primaryArea country
where
  detectRegionScan (serviceAreas : List String) (primaryArea : String)
      (country : String) : String :=
    let allText := jsToLower (joinSep " " (serviceAreas ++ [primaryArea]))
    if country == "CA" then
      match CANADIAN_CITIES.findSome? (fun pc =>
        if pc.2.any (fun city => jsIncludes allText (jsToLower city)) then some pc.1
        else none) with
      | some province => province
      | none => ""
    else if country == "US" then
      match US_CITIES.findSome? (fun sc =>
        if sc.2.any (fun city => jsIncludes allText (jsToLower city)) then some sc.1
        else none) with
      | some state => state
      | none => ""
    else ""

/-- Logo / image object of the LocalBusiness schema (url plus a stable
logo identity). -/
structure LBLogo where
  url : String
  atId : String
deriving Repr, BEq, DecidableEq

/-- Options accepted by the localBusiness builder. -/
structure LBOptions where
  businessType : String := ""
  phone : String := ""
  email : String := ""
  serviceAreas : List String := []
  areaServed : String := ""
  address : Option Address := none
  openingHours : Option JVal := none
  priceRange : String := ""
  sameAs : List String := []
  rating : Option (JVal × JVal) := none
deriving Repr

/-- Static default 24/7 opening-hours block of the localBusiness
template. -/
def defaultOpeningHours : JVal :=
  .obj [("@type", .s "OpeningHoursSpecification"),
    ("dayOfWeek", .arr [.s "Monday", .s "Tuesday", .s "Wednesday", .s "Thursday",
      .s "Friday", .s "Saturday", .s "Sunday"]),
    ("opens", .s "00:00"), ("closes", .s "23:59")]

/-- Static offer catalog of common HVAC services attached by the
localBusiness template. -/
def defaultOfferCatalog : JVal :=
  .obj [("@type", .s "OfferCatalog"), ("name", .s "HVAC Services"),
    ("itemListElement", .arr
      [.obj [("@type", .s "Offer"), ("itemOffered",
        .obj [("@type", .s "Service"), ("name", .s "Air Conditioning Repair")])],
       .obj [("@type", .s "Offer"), ("itemOffered",
        .obj [("@type", .s "Service"), ("name", .s "AC Installation")])],
       .obj [("@type", .s "Offer"), ("itemOffered",
        .obj [("@type", .s "Service"), ("name", .s "Heating Repair")])],
       .obj [("@type", .s "Offer"), ("itemOffered",
        .obj [("@type", .s "Service"), ("name", .s "Furnace Installation")])],
       .obj [("@type", .s "Offer"), ("itemOffered",
        .obj [("@type", .s "Service"), ("name", .s "HVAC Maintenance")])]])]

/-- LocalBusiness schema produced by the localBusiness builder. -/
structure LBSchema where
  atType : String
  name : String
  url : String
  atId : String
  logo : Option LBLogo := none
  image : Option LBLogo := none
  telephone : String := ""
  email : String := ""
  address : Address
  areaServed : AreaServedVal := .nothing
  openingHoursSpecification : JVal
  priceRange : String := ""
  sameAs : List String := []
  aggregateRating : Option (JVal × JVal) := none
  hasOfferCatalog : JVal
deriving Repr

/-- generate of src/schemas/localBusiness.js. -/
def generate (orgInfo : OrgInfo) (options : LBOptions) : LBSchema :=
  let logoVal : Option LBLogo :=
    if orgInfo.logo != "" then some ⟨orgInfo.logo, orgInfo.url ++ "#logo"⟩ else none
  let areas := options.serviceAreas
  let areaServedStr := options.areaServed
  let parsedAreas : List String :=
    if areaServedStr != "" then
      ((jsSplit areaServedStr ',').map jsTrim).filter (fun a => a != "")
    else []
  let allAreas := if !areas.isEmpty then areas else parsedAreas
  let primaryArea := allAreas.headD ""
  let detectedCountry := detectCountry options.address allAreas primaryArea
  let detectedRegion := detectRegion options.address allAreas primaryArea detectedCountry
  let address : Address :=
    match options.address with
    | some addr =>
      if addr.streetAddress != "" || addr.addressLocality != "" then
        { streetAddress := addr.streetAddress,
          addressLocality := addr.addressLocality,
          addressRegion :=
            (if addr.addressRegion != "" then addr.addressRegion else detectedRegion),
          postalCode := addr.postalCode,
          addressCountry :=
            (if addr.addressCountry != "" then addr.addressCountry
             else detectedCountry) }
      else if primaryArea != "" then
        let parts := (jsSplit primaryArea ',').map jsTrim
        { addressLocality := parts.headD "",
          addressRegion :=
            (if parts.getD 1 "" != "" then parts.getD 1 ""
             else if detectedRegion != "" then detectedRegion else ""),
          addressCountry := detectedCountry }
      else
        { addressCountry := detectedCountry,
          addressLocality :=
            (if orgInfo.name != "" && orgInfo.name != "Organization" then
              orgInfo.name
             else ""),
          addressRegion := detectedRegion }
    | none =>
      if primaryArea != "" then
        let parts := (jsSplit primaryArea ',').map jsTrim
        { addressLocality := parts.headD "",
          addressRegion :=
            (if parts.getD 1 "" != "" then parts.getD 1 ""
             else if detectedRegion != "" then detectedRegion else ""),
          addressCountry := detectedCountry }
      else
        { addressCountry := detectedCountry,
          addressLocality :=
            (if orgInfo.name != "" && orgInfo.name != "Organization" then
              orgInfo.name
             else ""),
          addressRegion := detectedRegion }
  let areaServedVal : AreaServedVal :=
    if allAreas.length > 1 then .many (allAreas.map (fun area => ⟨area⟩))
    else if allAreas.length == 1 then .one ⟨allAreas.headD ""⟩
    else if address.addressLocality != "" then .one ⟨address.addressLocality⟩
    else .nothing
  { atType := (if options.businessType != "" then options.businessType
      else "HVACBusiness"),
    name := orgInfo.name,
    url := orgInfo.url,
    atId := orgInfo.url ++ "#localbusiness",
    logo := logoVal,
    image := logoVal,
    telephone := options.phone,
    email := options.email,
    address := address,
    areaServed := areaServedVal,
    openingHoursSpecification :=
      (match options.openingHours with
       | some oh => oh
       | none => defaultOpeningHours),
    priceRange := options.priceRange,
    sameAs := options.sameAs,
    aggregateRating := options.rating,
    hasOfferCatalog := defaultOfferCatalog }

end LB

theorem svcDetectCountry_ne_empty (address : Option Address) (areas : List String) :
    Svc.detectCountryFromAreas address areas ≠ "" := by
  unfold Svc.detectCountryFromAreas
  try dsimp only []
  cases address with
  | none =>
    try dsimp only []
    split_ifs <;> decide
  | some a =>
    try dsimp only []
    by_cases h1 : (a.addressCountry != "") = true
    · rw [if_pos h1]
      try dsimp only []
      intro hc
      rw [hc] at h1
      exact absurd h1 (by decide)
    · rw [if_neg h1]
      by_cases h2 : (a.postalCode != "" &&
          rxMatchesFull Svc.canadianPostalRx a.postalCode) = true
      · rw [if_pos h2]
        try dsimp only []
        decide
      · rw [if_neg h2]
        by_cases h3 : (a.postalCode != "" &&
            rxMatchesFull Svc.usZipRx a.postalCode) = true
        · rw [if_pos h3]
          try dsimp only []
          decide
        · rw [if_neg h3]
          by_cases h4 : (a.addressRegion != "") = true
          · rw [if_pos h4]
            try dsimp only []
            by_cases h5 : Svc.CANADIAN_PROVINCES.contains (jsToUpper a.addressRegion) = true
            · rw [if_pos h5]
              try dsimp only []
              decide
            · rw [if_neg h5]
              by_cases h6 : Svc.US_STATES.contains (jsToUpper a.addressRegion) = true
              · rw [if_pos h6]
                try dsimp only []
                decide
              · rw [if_neg h6]
                try dsimp only []
                split_ifs <;> decide
          · rw [if_neg h4]
            try dsimp only []
            split_ifs <;> decide

theorem lbDetectCountry_ne_empty (address : Option Address) (areas : List String)
    (primaryArea : String) : LB.detectCountry address areas primaryArea ≠ "" := by
  unfold LB.detectCountry
  try dsimp only []
  cases address with
  | none =>
    try dsimp only []
    split_ifs <;> decide
  | some a =>
    try dsimp only []
    by_cases h1 : (a.addressCountry != "") = true
    · rw [if_pos h1]
      try dsimp only []
      intro hc
      rw [hc] at h1
      exact absurd h1 (by decide)
    · rw [if_neg h1]
      by_cases h2 : (a.postalCode != "" &&
          rxMatchesFull Svc.canadianPostalRx a.postalCode) = true
      · rw [if_pos h2]
        try dsimp only []
        decide
      · rw [if_neg h2]
        by_cases h3 : (a.postalCode != "" &&
            rxMatchesFull Svc.usZipRx a.postalCode) = true
        · rw [if_pos h3]
          try dsimp only []
          decide
        · rw [if_neg h3]
          by_cases h4 : (a.addressRegion != "") = true
          · rw [if_pos h4]
            try dsimp only []
            by_cases h5 : ((LB.CANADIAN_PROVINCES.any
                  (fun p => p.1 == jsToUpper a.addressRegion)) ||
                (LB.CANADIAN_PROVINCES.any
                  (fun p => jsToUpper p.2 == jsToUpper a.addressRegion))) = true
            · rw [if_pos h5]
              try dsimp only []
              decide
            · rw [if_neg h5]
              by_cases h6 : LB.US_STATES.contains (jsToUpper a.addressRegion) = true
              · rw [if_pos h6]
                try dsimp only []
                decide
              · rw [if_neg h6]
                try dsimp only []
                split_ifs <;> decide
          · rw [if_neg h4]
            try dsimp only []
            split_ifs <;> decide

/-- C2 counterexample: with no options.address, no areaServed and no
detectable service area (empty page data), the Service builder's
provider.address is present but has neither streetAddress nor
addressLocality populated; the LocalBusiness builder shows the same
when the organization name is the literal Organization. -/
theorem provider_address_may_lack_street_and_locality :
    (Svc.generate {} { name := "Acme", url := "https://a.com" }
      {}).provider.address.streetAddress = "" ∧
    (Svc.generate {} { name := "Acme", url := "https://a.com" }
      {}).provider.address.addressLocality = "" ∧
    (LB.generate { name := "Organization", url := "https://a.com" }
      {}).address.streetAddress = "" ∧
    (LB.generate { name := "Organization", url := "https://a.com" }
      {}).address.addressLocality = "" := by
  decide

/-- C2 (amended): every Service provider address and every
LocalBusiness address produced by the builders is present and always
has a populated addressCountry; streetAddress or addressLocality are
only populated when an explicit address, a service area or a detectable
location supplies them. -/
theorem builders_always_populate_address_country :
    (∀ pd org opts, (Svc.generate pd org opts).provider.address.addressCountry ≠ "") ∧
    (∀ org opts, (LB.generate org opts).address.addressCountry ≠ "") := by
  constructor
  · intro pd org opts
    unfold Svc.generate
    dsimp only []
    cases hopt : opts.address with
    | none =>
      dsimp only []
      split_ifs <;> (try dsimp only []) <;>
        first
          | exact svcDetectCountry_ne_empty _ _
          | (intro hc; (try dsimp only [] at hc); simp_all)
    | some addr =>
      dsimp only []
      split_ifs <;> (try dsimp only []) <;>
        first
          | exact svcDetectCountry_ne_empty _ _
          | (intro hc; (try dsimp only [] at hc); simp_all)
  · intro org opts
    unfold LB.generate
    dsimp only []
    cases hopt : opts.address with
    | none =>
      dsimp only []
      split_ifs <;> (try dsimp only []) <;>
        first
          | exact lbDetectCountry_ne_empty _ _ _
          | (intro hc; (try dsimp only [] at hc); simp_all)
    | some addr =>
      dsimp only []
      split_ifs <;> (try dsimp only []) <;>
        first
          | exact lbDetectCountry_ne_empty _ _ _
          | (intro hc; (try dsimp only [] at hc); simp_all)

/-- C9: the Service builder on areaServed Houston, Dallas and no
explicit address yields provider.address.addressCountry US and an
areaServed that is exactly the two City entries Houston then Dallas in
input order. -/
theorem service_builder_houston_dallas_scenario :
    (Svc.generate { url := "https://x.com/p" }
      { name := "Acme", url := "https://x.com" }
      { areaServed := "Houston, Dallas" }).provider.address.addressCountry = "US" ∧
    (Svc.generate { url := "https://x.com/p" }
      { name := "Acme", url := "https://x.com" }
      { areaServed := "Houston, Dallas" }).areaServed =
      .many [⟨"Houston"⟩, ⟨"Dallas"⟩] := by
  decide

/-! ### AI post-processing pass (src/services/ai/schemaGenerator.js) -/

/-- JavaScript typeof x === the string object: true for objects, arrays
and null. -/
def jsTypeofObject : JVal → Bool
  | .obj _ => true
  | .arr _ => true
  | .null => true
  | _ => false

/-- Whether a value is an object literal (the only values on which a
property write lands). -/
def JVal.isObj : JVal → Bool
  | .obj _ => true
  | _ => false

/-- cleanIdReference of schemaGenerator.js: strip a polluted identity
reference down to a one-key object when the value is a truthy object
with a truthy identity field, otherwise return it unchanged. -/
def cleanIdReference (obj : JVal) : JVal :=
  if obj.truthy && jsTypeofObject obj && (obj.getD "@id").truthy then
    JVal.obj [("@id", obj.getD "@id")]
  else obj

/-- JavaScript strict equality of the type field against a string
literal, as in the guards of ensureProviderAddresses: true exactly when
the field holds that string. -/
def typeIs (s : JVal) (t : String) : Bool :=
  match s.getField "@type" with
  | some (JVal.s v) => v == t
  | _ => false

/-- One pure-reference enforcement block of ensureProviderAddresses
without a type test (the two inner ifs of the WebPage block): if the
field is truthy and has a truthy identity, replace it by its cleaned
reference. -/
def refStageNoType (k : String) (s : JVal) : JVal :=
  if (s.getD k).truthy && ((s.getD k).getD "@id").truthy then
    s.setField k (cleanIdReference (s.getD k))
  else s

/-- One pure-reference enforcement block of ensureProviderAddresses
guarded by a type test (the Service.provider, Article.publisher and
FAQPage.isPartOf blocks). -/
def refStage (t k : String) (s : JVal) : JVal :=
  if (typeIs s t) && (s.getD k).truthy
      && ((s.getD k).getD "@id").truthy then
    s.setField k (cleanIdReference (s.getD k))
  else s

/-- The WebPage block of ensureProviderAddresses: under a WebPage type
test, enforce pure references on isPartOf and then on about. -/
def webStage (s : JVal) : JVal :=
  if typeIs s "WebPage" then
    refStageNoType "about" (refStageNoType "isPartOf" s)
  else s

/-- Organization info consumed by the AI post-processing pass (name,
phone and a comma-separated areaServed string; an absent field is the
empty string). -/
structure AiOrgInfo where
  name : String := ""
  phone : String := ""
  areaServed : String := ""
deriving Repr

/-- One guarded assignment of ensureProviderAddresses: write the field
only when it is currently falsy. -/
def fillIfMissing (k : String) (v : JVal) (a : JVal) : JVal :=
  if !(a.getD k).truthy then a.setField k v else a

/-- The in-place completion of an existing incomplete address object in
ensureProviderAddresses: always write addressLocality, then write
addressRegion and addressCountry only when they are falsy. -/
def addrComplete (xv : JVal) (r c : String) (addr : JVal) : JVal :=
  fillIfMissing "addressCountry" (JVal.s c)
    (fillIfMissing "addressRegion" (JVal.s r)
      (addr.setField "addressLocality" xv))

/-- The address block of ensureProviderAddresses for business entities:
a missing address is replaced by a fresh PostalAddress built from the
detected locale; an address lacking both addressLocality and
streetAddress is completed in place. -/
def addrFix (c r ci : String) (o : AiOrgInfo) (s : JVal) : JVal :=
  if !(s.getD "address").truthy then
    s.setField "address" (JVal.obj
      [("@type", JVal.s "PostalAddress"),
       ("addressLocality", JVal.s (if ci != "" then ci else o.name)),
       ("addressRegion", JVal.s r),
       ("addressCountry", JVal.s c)])
  else if !((s.getD "address").getD "addressLocality").truthy
      && !((s.getD "address").getD "streetAddress").truthy then
    s.setField "address"
      (addrComplete (JVal.s (if ci != "" then ci else o.name)) r c
        (s.getD "address"))
  else s

/-- The business block of ensureProviderAddresses: under an
HVACBusiness-or-LocalBusiness type test, fix the address and then fill
a falsy telephone from orgInfo.phone or pageData.phone. -/
def bizStage (c r ci : String) (o : AiOrgInfo) (p : PageData) (s : JVal) : JVal :=
  if typeIs s "HVACBusiness"
      || typeIs s "LocalBusiness" then
    let u1 := addrFix c r ci o s
    if !(u1.getD "telephone").truthy && (o.phone != "" || p.phone != "") then
      u1.setField "telephone"
        (JVal.s (if o.phone != "" then o.phone else p.phone))
    else u1
  else s

/-- The whole per-schema body of the map callback of
ensureProviderAddresses: the five sequential blocks, in source order. -/
def ensureSchema (c r ci : String) (o : AiOrgInfo) (p : PageData)
    (schema : JVal) : JVal :=
  bizStage c r ci o p
    (refStage "FAQPage" "isPartOf"
      (webStage
        (refStage "Article" "publisher"
          (refStage "Service" "provider" schema))))

/-- One item of the schema list handed to ensureProviderAddresses: a
type tag and the schema value. -/
structure SchemaItem where
  type : String
  schema : JVal
deriving Repr

/-- The map callback of ensureProviderAddresses: a falsy schema is
returned untouched, otherwise the five blocks run on it. -/
def ensureProviderItem (c r ci : String) (o : AiOrgInfo) (p : PageData)
    (item : SchemaItem) : SchemaItem :=
  if !item.schema.truthy then item
  else { item with schema := ensureSchema c r ci o p item.schema }

/-- The Canadian city table of ensureProviderAddresses. -/
def aiCanadianCities : List String :=
  ["Hamilton", "Toronto", "Ottawa", "Burlington", "Oakville", "Mississauga",
   "Brampton", "Ancaster", "Dundas", "Stoney Creek", "Waterdown", "Grimsby",
   "Vancouver", "Calgary", "Edmonton", "Montreal", "Kitchener", "Waterloo",
   "London", "Guelph", "Cambridge"]

/-- ensureProviderAddresses of schemaGenerator.js: detect a country /
region / city triple from orgInfo.areaServed (else
pageData.serviceAreas) via the Canadian city table, then run the
per-item invariant-repair pass over the list. -/
def ensureProviderAddresses (schemas : List SchemaItem) (orgInfo : AiOrgInfo)
    (pageData : PageData) : List SchemaItem :=
  let allAreas : List String :=
    if orgInfo.areaServed != "" then
      ((jsSplit orgInfo.areaServed ',').map jsTrim).filter (fun a => a != "")
    else pageData.serviceAreas
  let allText := jsToLower (joinSep " " allAreas)
  let det : String × String × String :=
    match aiCanadianCities.find? (fun city => jsIncludes allText (jsToLower city)) with
    | some city =>
      ("CA",
        if city == "Vancouver" then "BC"
        else if city == "Calgary" || city == "Edmonton" then "AB"
        else if city == "Montreal" then "QC"
        else "ON",
        city)
    | none => ("CA", "ON", allAreas.headD "")
  schemas.map (ensureProviderItem det.1 det.2.1 det.2.2 orgInfo pageData)

/-- A field value is stable for reference purity: whenever it is present,
truthy and carries a truthy identity, it is exactly the one-key identity
object. -/
def refStable (k : String) (s : JVal) : Prop :=
  ∀ p, s.getField k = some p → p.truthy = true → (p.getD "@id").truthy = true →
    p = JVal.obj [("@id", p.getD "@id")]

/-- Reference purity of a key under a type test. -/
def stageStable (t k : String) (s : JVal) : Prop :=
  (typeIs s t) = true → refStable k s

/-- Reference purity of isPartOf and about under the WebPage type
test. -/
def webStable (s : JVal) : Prop :=
  (typeIs s "WebPage") = true →
    refStable "isPartOf" s ∧ refStable "about" s

theorem setFieldList_find_self (fs : List (String × JVal)) (k : String) (x : JVal) :
    (JVal.setField.setFieldList fs k x).find? (fun kv => kv.1 == k) = some (k, x) := by
  induction fs with
  | nil => simp [JVal.setField.setFieldList, List.find?]
  | cons kv rest ih =>
    by_cases h : (kv.1 == k) = true
    · simp [JVal.setField.setFieldList, h, List.find?]
    · simp only [JVal.setField.setFieldList, if_neg h]
      rw [List.find?_cons_of_neg _ (by simpa using h)]
      exact ih

theorem setFieldList_find_ne (fs : List (String × JVal)) (k k2 : String) (x : JVal)
    (h : (k2 == k) = false) :
    (JVal.setField.setFieldList fs k x).find? (fun kv => kv.1 == k2) =
      fs.find? (fun kv => kv.1 == k2) := by
  have hk2 : (k == k2) = false := by
    rw [beq_eq_false_iff_ne] at h ⊢
    exact fun e => h e.symm
  induction fs with
  | nil => simp [JVal.setField.setFieldList, List.find?, hk2]
  | cons kv rest ih =>
    by_cases hh : (kv.1 == k) = true
    · have hkeq : kv.1 = k := eq_of_beq hh
      simp only [JVal.setField.setFieldList, if_pos hh]
      rw [List.find?_cons_of_neg _ (by simpa using hk2),
        List.find?_cons_of_neg _ (by simp [hkeq]; simpa using hk2)]
    · simp only [JVal.setField.setFieldList, if_neg hh]
      by_cases hv : (kv.1 == k2) = true
      · rw [List.find?_cons_of_pos _ (by simpa using hv),
          List.find?_cons_of_pos _ (by simpa using hv)]
      · rw [List.find?_cons_of_neg _ (by simpa using hv),
          List.find?_cons_of_neg _ (by simpa using hv)]
        exact ih

theorem JVal.getField_setField_self (fs : List (String × JVal)) (k : String) (x : JVal) :
    ((JVal.obj fs).setField k x).getField k = some x := by
  simp [JVal.setField, JVal.getField, setFieldList_find_self]

theorem JVal.getField_setField_ne (v : JVal) (k k2 : String) (x : JVal) (h : k2 ≠ k) :
    (v.setField k x).getField k2 = v.getField k2 := by
  cases v with
  | obj fs =>
    simp only [JVal.setField, JVal.getField]
    rw [setFieldList_find_ne fs k k2 x (beq_eq_false_iff_ne.mpr h)]
  | s v => rfl
  | i v => rfl
  | b v => rfl
  | null => rfl
  | arr xs => rfl

theorem setFieldList_self (fs : List (String × JVal)) (k : String) (x : JVal)
    (h : (fs.find? (fun kv => kv.1 == k)).map Prod.snd = some x) :
    JVal.setField.setFieldList fs k x = fs := by
  induction fs with
  | nil => simp [List.find?] at h
  | cons kv rest ih =>
    by_cases hk : (kv.1 == k) = true
    · have hkeq : kv.1 = k := eq_of_beq hk
      rw [List.find?_cons_of_pos _ (by simpa using hk)] at h
      have h2 : kv.2 = x := by simpa using h
      simp only [JVal.setField.setFieldList, if_pos hk]
      cases kv with
      | mk k1 v1 =>
        simp only at hkeq h2
        rw [hkeq, h2]
    · rw [List.find?_cons_of_neg _ (by simpa using hk)] at h
      simp only [JVal.setField.setFieldList, if_neg hk]
      rw [ih h]

theorem JVal.setField_of_getField (v : JVal) (k : String) (x : JVal)
    (h : v.getField k = some x) : v.setField k x = v := by
  cases v with
  | obj fs =>
    simp only [JVal.getField] at h
    simp only [JVal.setField]
    rw [setFieldList_self fs k x h]
  | s v => rfl
  | i v => rfl
  | b v => rfl
  | null => rfl
  | arr xs => rfl

theorem JVal.truthy_setField (v : JVal) (k : String) (x : JVal) :
    (v.setField k x).truthy = v.truthy := by
  cases v <;> rfl

theorem JVal.isObj_setField (v : JVal) (k : String) (x : JVal) :
    (v.setField k x).isObj = v.isObj := by
  cases v <;> rfl

theorem JVal.setField_nonobj (v : JVal) (k : String) (x : JVal)
    (h : v.isObj = false) : v.setField k x = v := by
  cases v with
  | obj fs => simp [JVal.isObj] at h
  | s v => rfl
  | i v => rfl
  | b v => rfl
  | null => rfl
  | arr xs => rfl

theorem JVal.getField_nonobj (v : JVal) (k : String) (h : v.isObj = false) :
    v.getField k = none := by
  cases v with
  | obj fs => simp [JVal.isObj] at h
  | s v => rfl
  | i v => rfl
  | b v => rfl
  | null => rfl
  | arr xs => rfl

theorem JVal.getD_truthy_getField (v : JVal) (k : String)
    (h : (v.getD k).truthy = true) : v.getField k = some (v.getD k) := by
  unfold JVal.getD at h ⊢
  cases hg : v.getField k with
  | none => rw [hg] at h; simp [JVal.truthy] at h
  | some x => rfl

theorem JVal.obj_of_getField_some (v : JVal) (k : String) (x : JVal)
    (h : v.getField k = some x) : v.isObj = true := by
  cases v with
  | obj fs => rfl
  | s v => exact absurd h (by simp [JVal.getField])
  | i v => exact absurd h (by simp [JVal.getField])
  | b v => exact absurd h (by simp [JVal.getField])
  | null => exact absurd h (by simp [JVal.getField])
  | arr xs => exact absurd h (by simp [JVal.getField])

theorem JVal.eq_obj_of_isObj (v : JVal) (h : v.isObj = true) :
    ∃ fs, v = JVal.obj fs := by
  cases v with
  | obj fs => exact ⟨fs, rfl⟩
  | s v => simp [JVal.isObj] at h
  | i v => simp [JVal.isObj] at h
  | b v => simp [JVal.isObj] at h
  | null => simp [JVal.isObj] at h
  | arr xs => simp [JVal.isObj] at h

theorem JVal.getD_of_getField (v : JVal) (k : String) (x : JVal)
    (h : v.getField k = some x) : v.getD k = x := by
  unfold JVal.getD
  rw [h]
  rfl

theorem typeIs_congr (t : String) (s s' : JVal)
    (ht : s'.getField "@type" = s.getField "@type") :
    typeIs s' t = typeIs s t := by
  unfold typeIs
  rw [ht]

theorem typeIs_none (t : String) (s : JVal) (h : s.getField "@type" = none) :
    typeIs s t = false := by
  unfold typeIs
  rw [h]

theorem cleanIdReference_of_truthy (p : JVal) (h1 : p.truthy = true)
    (h2 : (p.getD "@id").truthy = true) :
    cleanIdReference p = JVal.obj [("@id", p.getD "@id")] := by
  have hget : p.getField "@id" = some (p.getD "@id") :=
    JVal.getD_truthy_getField p "@id" h2
  have hobj : p.isObj = true := JVal.obj_of_getField_some p "@id" _ hget
  have ht : jsTypeofObject p = true := by
    obtain ⟨fs, rfl⟩ := JVal.eq_obj_of_isObj p hobj
    rfl
  unfold cleanIdReference
  rw [if_pos (by rw [h1, h2, ht]; rfl)]

theorem refStageNoType_of_refStable (k : String) (s : JVal)
    (h : refStable k s) : refStageNoType k s = s := by
  unfold refStageNoType
  by_cases hg : ((s.getD k).truthy && ((s.getD k).getD "@id").truthy) = true
  · rw [if_pos hg]
    have h1 : (s.getD k).truthy = true := (Bool.and_eq_true _ _ |>.mp hg).1
    have h2 : ((s.getD k).getD "@id").truthy = true := (Bool.and_eq_true _ _ |>.mp hg).2
    have hget : s.getField k = some (s.getD k) := JVal.getD_truthy_getField s k h1
    have hp := h (s.getD k) hget h1 h2
    rw [cleanIdReference_of_truthy _ h1 h2, ← hp]
    exact JVal.setField_of_getField s k _ hget
  · rw [if_neg hg]

theorem refStable_refStageNoType (k : String) (s : JVal) :
    refStable k (refStageNoType k s) := by
  unfold refStageNoType
  by_cases hg : ((s.getD k).truthy && ((s.getD k).getD "@id").truthy) = true
  · rw [if_pos hg]
    intro p hp htr hid
    have h1 : (s.getD k).truthy = true := (Bool.and_eq_true _ _ |>.mp hg).1
    have h2 : ((s.getD k).getD "@id").truthy = true := (Bool.and_eq_true _ _ |>.mp hg).2
    rw [cleanIdReference_of_truthy _ h1 h2] at hp
    have hobj : s.isObj = true :=
      JVal.obj_of_getField_some s k _ (JVal.getD_truthy_getField s k h1)
    obtain ⟨fs, rfl⟩ := JVal.eq_obj_of_isObj s hobj
    rw [JVal.getField_setField_self] at hp
    have hp' : p = JVal.obj [("@id", ((JVal.obj fs).getD k).getD "@id")] :=
      (Option.some.injEq _ _ |>.mp hp).symm
    rw [hp']
    rfl
  · rw [if_neg hg]
    intro p hp htr hid
    have hpd : s.getD k = p := JVal.getD_of_getField s k p hp
    rw [hpd, htr, hid] at hg
    exact absurd rfl hg

theorem refStable_congr (k : String) (s s' : JVal)
    (h : s'.getField k = s.getField k) (hs : refStable k s) : refStable k s' := by
  intro p hp htr hid
  rw [h] at hp
  exact hs p hp htr hid

theorem refStage_eq_of_type (t k : String) (s : JVal)
    (h : (typeIs s t) = true) :
    refStage t k s = refStageNoType k s := by
  unfold refStage refStageNoType
  rw [h]
  simp only [Bool.true_and, Bool.and_assoc]

theorem refStage_eq_of_not_type (t k : String) (s : JVal)
    (h : (typeIs s t) = false) :
    refStage t k s = s := by
  unfold refStage
  rw [h]
  simp only [Bool.false_and, Bool.and_self_left]
  rw [if_neg (by simp)]

theorem stageStable_refStage (t k : String) (s : JVal) :
    stageStable t k (refStage t k s) := by
  intro htype
  by_cases h : (typeIs s t) = true
  · rw [refStage_eq_of_type t k s h]
    exact refStable_refStageNoType k s
  · have hf : (typeIs s t) = false := by
      revert h; cases (typeIs s t) <;> simp
    rw [refStage_eq_of_not_type t k s hf] at htype
    rw [htype] at hf
    exact absurd hf (by decide)

theorem refStage_of_stageStable (t k : String) (s : JVal)
    (h : stageStable t k s) : refStage t k s = s := by
  by_cases ht : (typeIs s t) = true
  · rw [refStage_eq_of_type t k s ht]
    exact refStageNoType_of_refStable k s (h ht)
  · have hf : (typeIs s t) = false := by
      revert ht; cases (typeIs s t) <;> simp
    exact refStage_eq_of_not_type t k s hf

theorem stageStable_congr (t k : String) (s s' : JVal)
    (ht : s'.getField "@type" = s.getField "@type")
    (hk : s'.getField k = s.getField k)
    (h : stageStable t k s) : stageStable t k s' := by
  intro htype
  rw [typeIs_congr t s s' ht] at htype
  exact refStable_congr k s s' hk (h htype)

theorem getField_refStageNoType_ne (k k2 : String) (s : JVal) (h : k2 ≠ k) :
    (refStageNoType k s).getField k2 = s.getField k2 := by
  unfold refStageNoType
  by_cases hg : ((s.getD k).truthy && ((s.getD k).getD "@id").truthy) = true
  · rw [if_pos hg]
    exact JVal.getField_setField_ne s k k2 _ h
  · rw [if_neg hg]

theorem getField_refStage_ne (t k k2 : String) (s : JVal) (h : k2 ≠ k) :
    (refStage t k s).getField k2 = s.getField k2 := by
  unfold refStage
  by_cases hg : ((typeIs s t) && (s.getD k).truthy
      && ((s.getD k).getD "@id").truthy) = true
  · rw [if_pos hg]
    exact JVal.getField_setField_ne s k k2 _ h
  · rw [if_neg hg]

theorem getField_webStage_ne (k2 : String) (s : JVal)
    (h1 : k2 ≠ "isPartOf") (h2 : k2 ≠ "about") :
    (webStage s).getField k2 = s.getField k2 := by
  unfold webStage
  by_cases ht : (typeIs s "WebPage") = true
  · rw [if_pos ht, getField_refStageNoType_ne _ _ _ h2,
      getField_refStageNoType_ne _ _ _ h1]
  · rw [if_neg ht]

theorem webStable_webStage (s : JVal) : webStable (webStage s) := by
  intro htype
  rw [typeIs_congr "WebPage" s (webStage s)
    (getField_webStage_ne "@type" s (by decide) (by decide))] at htype
  unfold webStage
  rw [if_pos htype]
  constructor
  · exact refStable_congr "isPartOf" _ _
      (getField_refStageNoType_ne "about" "isPartOf" _ (by decide))
      (refStable_refStageNoType "isPartOf" s)
  · exact refStable_refStageNoType "about" _
  
theorem webStage_of_webStable (s : JVal) (h : webStable s) : webStage s = s := by
  unfold webStage
  by_cases ht : (typeIs s "WebPage") = true
  · rw [if_pos ht]
    obtain ⟨hip, hab⟩ := h ht
    rw [refStageNoType_of_refStable _ _ hip, refStageNoType_of_refStable _ _ hab]
  · rw [if_neg ht]

theorem webStable_congr (s s' : JVal)
    (ht : s'.getField "@type" = s.getField "@type")
    (hip : s'.getField "isPartOf" = s.getField "isPartOf")
    (hab : s'.getField "about" = s.getField "about")
    (h : webStable s) : webStable s' := by
  intro htype
  rw [typeIs_congr "WebPage" s s' ht] at htype
  exact ⟨refStable_congr _ _ _ hip (h htype).1, refStable_congr _ _ _ hab (h htype).2⟩

theorem refStable_refStage (t k : String) (s : JVal)
    (h : refStable k s) : refStable k (refStage t k s) := by
  by_cases ht : (typeIs s t) = true
  · rw [refStage_eq_of_type t k s ht]
    exact refStable_refStageNoType k s
  · have hf : (typeIs s t) = false := by
      revert ht; cases (typeIs s t) <;> simp
    rw [refStage_eq_of_not_type t k s hf]
    exact h

theorem webStable_refStage_isPartOf (t : String) (s : JVal)
    (h : webStable s) : webStable (refStage t "isPartOf" s) := by
  intro htype
  rw [typeIs_congr "WebPage" s (refStage t "isPartOf" s)
    (getField_refStage_ne t "isPartOf" "@type" s (by decide))] at htype
  exact ⟨refStable_refStage t "isPartOf" s (h htype).1,
    refStable_congr "about" _ _
      (getField_refStage_ne t "isPartOf" "about" s (by decide)) (h htype).2⟩

theorem getField_fillIfMissing_ne (k k2 : String) (v a : JVal) (h : k2 ≠ k) :
    (fillIfMissing k v a).getField k2 = a.getField k2 := by
  unfold fillIfMissing
  by_cases hg : (!(a.getD k).truthy) = true
  · rw [if_pos hg]
    exact JVal.getField_setField_ne a k k2 v h
  · rw [if_neg hg]

theorem isObj_fillIfMissing (k : String) (v a : JVal) :
    (fillIfMissing k v a).isObj = a.isObj := by
  unfold fillIfMissing
  by_cases hg : (!(a.getD k).truthy) = true
  · rw [if_pos hg]
    exact JVal.isObj_setField a k v
  · rw [if_neg hg]

theorem truthy_fillIfMissing (k : String) (v a : JVal) :
    (fillIfMissing k v a).truthy = a.truthy := by
  unfold fillIfMissing
  by_cases hg : (!(a.getD k).truthy) = true
  · rw [if_pos hg]
    exact JVal.truthy_setField a k v
  · rw [if_neg hg]

theorem fillIfMissing_nonobj (k : String) (v a : JVal) (h : a.isObj = false) :
    fillIfMissing k v a = a := by
  unfold fillIfMissing
  by_cases hg : (!(a.getD k).truthy) = true
  · rw [if_pos hg]
    exact JVal.setField_nonobj a k v h
  · rw [if_neg hg]

theorem fillIfMissing_fixpoint (k : String) (v a : JVal)
    (h : (a.getD k).truthy = true ∨ a.getField k = some v) :
    fillIfMissing k v a = a := by
  unfold fillIfMissing
  by_cases hg : (!(a.getD k).truthy) = true
  · rw [if_pos hg]
    cases h with
    | inl hh =>
      rw [hh] at hg
      exact absurd hg (by decide)
    | inr hh => exact JVal.setField_of_getField a k v hh
  · rw [if_neg hg]

theorem fillIfMissing_fact (k : String) (v a : JVal) (h : a.isObj = true) :
    ((fillIfMissing k v a).getD k).truthy = true ∨
      (fillIfMissing k v a).getField k = some v := by
  unfold fillIfMissing
  by_cases hg : (!(a.getD k).truthy) = true
  · right
    rw [if_pos hg]
    obtain ⟨fs, rfl⟩ := JVal.eq_obj_of_isObj a h
    exact JVal.getField_setField_self fs k v
  · left
    rw [if_neg hg]
    revert hg
    cases (a.getD k).truthy <;> simp

theorem addrComplete_nonobj (xv : JVal) (r c : String) (addr : JVal)
    (h : addr.isObj = false) : addrComplete xv r c addr = addr := by
  unfold addrComplete
  rw [JVal.setField_nonobj addr _ _ h, fillIfMissing_nonobj _ _ _ h,
    fillIfMissing_nonobj _ _ _ h]

theorem addrComplete_fixpoint (xv : JVal) (r c : String) (addr : JVal)
    (hl : addr.getField "addressLocality" = some xv)
    (hr : (addr.getD "addressRegion").truthy = true ∨
      addr.getField "addressRegion" = some (JVal.s r))
    (hc : (addr.getD "addressCountry").truthy = true ∨
      addr.getField "addressCountry" = some (JVal.s c)) :
    addrComplete xv r c addr = addr := by
  unfold addrComplete
  rw [JVal.setField_of_getField _ _ _ hl, fillIfMissing_fixpoint _ _ _ hr,
    fillIfMissing_fixpoint _ _ _ hc]

theorem getField_addrComplete_pres (xv : JVal) (r c : String) (addr : JVal)
    (k2 : String) (h2 : k2 ≠ "addressRegion") (h3 : k2 ≠ "addressCountry") :
    (addrComplete xv r c addr).getField k2 =
      (addr.setField "addressLocality" xv).getField k2 := by
  unfold addrComplete
  rw [getField_fillIfMissing_ne _ _ _ _ h3, getField_fillIfMissing_ne _ _ _ _ h2]

theorem getField_addrComplete_locality (xv : JVal) (r c : String)
    (fs : List (String × JVal)) :
    (addrComplete xv r c (JVal.obj fs)).getField "addressLocality" = some xv := by
  rw [getField_addrComplete_pres xv r c _ "addressLocality" (by decide) (by decide)]
  exact JVal.getField_setField_self fs _ xv

theorem getField_addrComplete_street (xv : JVal) (r c : String) (addr : JVal) :
    (addrComplete xv r c addr).getField "streetAddress" =
      addr.getField "streetAddress" := by
  rw [getField_addrComplete_pres xv r c _ "streetAddress" (by decide) (by decide)]
  exact JVal.getField_setField_ne addr _ _ _ (by decide)

theorem isObj_addrComplete (xv : JVal) (r c : String) (addr : JVal) :
    (addrComplete xv r c addr).isObj = addr.isObj := by
  unfold addrComplete
  rw [isObj_fillIfMissing, isObj_fillIfMissing, JVal.isObj_setField]

theorem truthy_addrComplete (xv : JVal) (r c : String) (addr : JVal) :
    (addrComplete xv r c addr).truthy = addr.truthy := by
  unfold addrComplete
  rw [truthy_fillIfMissing, truthy_fillIfMissing, JVal.truthy_setField]

theorem addrComplete_region_fact (xv : JVal) (r c : String)
    (fs : List (String × JVal)) :
    ((addrComplete xv r c (JVal.obj fs)).getD "addressRegion").truthy = true ∨
      (addrComplete xv r c (JVal.obj fs)).getField "addressRegion" =
        some (JVal.s r) := by
  have hobj : ((JVal.obj fs).setField "addressLocality" xv).isObj = true := by
    rw [JVal.isObj_setField]; rfl
  have h := fillIfMissing_fact "addressRegion" (JVal.s r)
    ((JVal.obj fs).setField "addressLocality" xv) hobj
  unfold addrComplete
  cases h with
  | inl hh =>
    left
    unfold JVal.getD at hh ⊢
    rw [getField_fillIfMissing_ne _ _ _ _ (by decide)]
    exact hh
  | inr hh =>
    right
    rw [getField_fillIfMissing_ne _ _ _ _ (by decide)]
    exact hh

theorem addrComplete_country_fact (xv : JVal) (r c : String)
    (fs : List (String × JVal)) :
    ((addrComplete xv r c (JVal.obj fs)).getD "addressCountry").truthy = true ∨
      (addrComplete xv r c (JVal.obj fs)).getField "addressCountry" =
        some (JVal.s c) := by
  have hobj : (fillIfMissing "addressRegion" (JVal.s r)
      ((JVal.obj fs).setField "addressLocality" xv)).isObj = true := by
    rw [isObj_fillIfMissing, JVal.isObj_setField]; rfl
  exact fillIfMissing_fact "addressCountry" (JVal.s c) _ hobj

theorem JVal.getD_nonobj (v : JVal) (k : String) (h : v.isObj = false) :
    v.getD k = JVal.null := by
  unfold JVal.getD
  rw [JVal.getField_nonobj v k h]
  rfl

theorem addrFix_nonobj (c r ci : String) (o : AiOrgInfo) (s : JVal)
    (h : s.isObj = false) : addrFix c r ci o s = s := by
  have hgd : s.getD "address" = JVal.null := JVal.getD_nonobj s _ h
  unfold addrFix
  rw [if_pos (by rw [hgd]; decide)]
  exact JVal.setField_nonobj s _ _ h

theorem getField_addrFix_ne (c r ci : String) (o : AiOrgInfo) (s : JVal)
    (k2 : String) (h : k2 ≠ "address") :
    (addrFix c r ci o s).getField k2 = s.getField k2 := by
  unfold addrFix
  by_cases h1 : (!(s.getD "address").truthy) = true
  · rw [if_pos h1]
    exact JVal.getField_setField_ne s _ _ _ h
  · rw [if_neg h1]
    by_cases h2 : (!((s.getD "address").getD "addressLocality").truthy
        && !((s.getD "address").getD "streetAddress").truthy) = true
    · rw [if_pos h2]
      exact JVal.getField_setField_ne s _ _ _ h
    · rw [if_neg h2]

theorem isObj_addrFix (c r ci : String) (o : AiOrgInfo) (s : JVal) :
    (addrFix c r ci o s).isObj = s.isObj := by
  unfold addrFix
  by_cases h1 : (!(s.getD "address").truthy) = true
  · rw [if_pos h1]
    exact JVal.isObj_setField s _ _
  · rw [if_neg h1]
    by_cases h2 : (!((s.getD "address").getD "addressLocality").truthy
        && !((s.getD "address").getD "streetAddress").truthy) = true
    · rw [if_pos h2]
      exact JVal.isObj_setField s _ _
    · rw [if_neg h2]

theorem truthy_addrFix (c r ci : String) (o : AiOrgInfo) (s : JVal) :
    (addrFix c r ci o s).truthy = s.truthy := by
  unfold addrFix
  by_cases h1 : (!(s.getD "address").truthy) = true
  · rw [if_pos h1]
    exact JVal.truthy_setField s _ _
  · rw [if_neg h1]
    by_cases h2 : (!((s.getD "address").getD "addressLocality").truthy
        && !((s.getD "address").getD "streetAddress").truthy) = true
    · rw [if_pos h2]
      exact JVal.truthy_setField s _ _
    · rw [if_neg h2]

theorem addrFix_stable (c r ci : String) (o : AiOrgInfo) (s s' : JVal)
    (hobj : s'.isObj = s.isObj)
    (h : s'.getField "address" = (addrFix c r ci o s).getField "address") :
    addrFix c r ci o s' = s' := by
  by_cases hso : s.isObj = true
  case neg =>
    have hso' : s'.isObj = false := by
      rw [hobj]; revert hso; cases s.isObj <;> simp
    exact addrFix_nonobj c r ci o s' hso'
  case pos =>
  unfold addrFix at h
  by_cases hb1 : (!(s.getD "address").truthy) = true
  · rw [if_pos hb1] at h
    obtain ⟨fs, rfl⟩ := JVal.eq_obj_of_isObj s hso
    rw [JVal.getField_setField_self] at h
    have hgd : s'.getD "address" = JVal.obj
        [("@type", JVal.s "PostalAddress"),
         ("addressLocality", JVal.s (if ci != "" then ci else o.name)),
         ("addressRegion", JVal.s r),
         ("addressCountry", JVal.s c)] := JVal.getD_of_getField _ _ _ h
    unfold addrFix
    rw [if_neg (by rw [hgd]; simp [JVal.truthy])]
    have hloc : (s'.getD "address").getD "addressLocality" =
        JVal.s (if ci != "" then ci else o.name) := by
      rw [hgd]; rfl
    have hstr : (s'.getD "address").getD "streetAddress" = JVal.null := by
      rw [hgd]; rfl
    by_cases hX : (JVal.s (if ci != "" then ci else o.name)).truthy = true
    · rw [if_neg (by intro hcond; rw [hloc, hX] at hcond; simp at hcond)]
    · have hX' : (JVal.s (if ci != "" then ci else o.name)).truthy = false := by
        revert hX; cases (JVal.s (if ci != "" then ci else o.name)).truthy <;> simp
      rw [if_pos (by rw [hloc, hstr, hX']; decide)]
      rw [hgd]
      rw [addrComplete_fixpoint _ _ _ _ (by rfl) (Or.inr (by rfl)) (Or.inr (by rfl))]
      exact JVal.setField_of_getField s' _ _ h
  · have hb1' : (s.getD "address").truthy = true := by
      revert hb1; cases (s.getD "address").truthy <;> simp
    rw [if_neg hb1] at h
    by_cases hb2 : (!((s.getD "address").getD "addressLocality").truthy
        && !((s.getD "address").getD "streetAddress").truthy) = true
    · rw [if_pos hb2] at h
      obtain ⟨fs, rfl⟩ := JVal.eq_obj_of_isObj s hso
      rw [JVal.getField_setField_self] at h
      have hgd : s'.getD "address" =
          addrComplete (JVal.s (if ci != "" then ci else o.name)) r c
            ((JVal.obj fs).getD "address") := JVal.getD_of_getField _ _ _ h
      by_cases haobj : ((JVal.obj fs).getD "address").isObj = true
      · obtain ⟨gs, hgs⟩ := JVal.eq_obj_of_isObj _ haobj
        rw [hgs] at h hgd hb2 hb1'
        have hb2c := (Bool.and_eq_true _ _).mp hb2
        have hstf : ((JVal.obj gs).getD "streetAddress").truthy = false := by
          have h2 := hb2c.2
          revert h2; cases ((JVal.obj gs).getD "streetAddress").truthy <;> simp
        unfold addrFix
        rw [if_neg (by rw [hgd, truthy_addrComplete]; simp [JVal.truthy])]
        have hl3 : (s'.getD "address").getD "addressLocality" =
            JVal.s (if ci != "" then ci else o.name) := by
          rw [hgd]
          exact JVal.getD_of_getField _ _ _ (getField_addrComplete_locality _ _ _ gs)
        have hst3 : (s'.getD "address").getD "streetAddress" =
            (JVal.obj gs).getD "streetAddress" := by
          rw [hgd]
          unfold JVal.getD
          rw [getField_addrComplete_street]
        by_cases hX : (JVal.s (if ci != "" then ci else o.name)).truthy = true
        · rw [if_neg (by intro hcond; rw [hl3, hX] at hcond; simp at hcond)]
        · have hX' : (JVal.s (if ci != "" then ci else o.name)).truthy = false := by
            revert hX; cases (JVal.s (if ci != "" then ci else o.name)).truthy <;> simp
          rw [if_pos (by rw [hl3, hst3, hX', hstf]; decide)]
          rw [hgd]
          rw [addrComplete_fixpoint _ _ _ _ (getField_addrComplete_locality _ _ _ gs)
            (addrComplete_region_fact _ _ _ gs) (addrComplete_country_fact _ _ _ gs)]
          exact JVal.setField_of_getField s' _ _ h
      · have haobj' : ((JVal.obj fs).getD "address").isObj = false := by
          revert haobj; cases ((JVal.obj fs).getD "address").isObj <;> simp
        rw [addrComplete_nonobj _ _ _ _ haobj'] at h hgd
        unfold addrFix
        rw [if_neg (by rw [hgd, hb1']; decide)]
        rw [if_pos (by rw [hgd, JVal.getD_nonobj _ _ haobj', JVal.getD_nonobj _ _ haobj']; decide)]
        rw [hgd, addrComplete_nonobj _ _ _ _ haobj']
        exact JVal.setField_of_getField s' _ _ h
    · rw [if_neg hb2] at h
      have hgd : s'.getD "address" = s.getD "address" := by
        unfold JVal.getD; rw [h]
      unfold addrFix
      rw [if_neg (by rw [hgd]; exact hb1)]
      rw [if_neg (by rw [hgd]; exact hb2)]

theorem bizStage_nonobj (c r ci : String) (o : AiOrgInfo) (p : PageData)
    (s : JVal) (h : s.isObj = false) : bizStage c r ci o p s = s := by
  unfold bizStage
  by_cases hT : (typeIs s "HVACBusiness"
      || typeIs s "LocalBusiness") = true
  · rw [if_pos hT]
    try dsimp only []
    rw [addrFix_nonobj c r ci o s h]
    by_cases htc : (!(s.getD "telephone").truthy
        && (o.phone != "" || p.phone != "")) = true
    · rw [if_pos htc]
      exact JVal.setField_nonobj s _ _ h
    · rw [if_neg htc]
  · rw [if_neg hT]

theorem getField_bizStage_ne (c r ci : String) (o : AiOrgInfo) (p : PageData)
    (s : JVal) (k2 : String) (h1 : k2 ≠ "address") (h2 : k2 ≠ "telephone") :
    (bizStage c r ci o p s).getField k2 = s.getField k2 := by
  unfold bizStage
  by_cases hT : (typeIs s "HVACBusiness"
      || typeIs s "LocalBusiness") = true
  · rw [if_pos hT]
    try dsimp only []
    by_cases htc : (!((addrFix c r ci o s).getD "telephone").truthy
        && (o.phone != "" || p.phone != "")) = true
    · rw [if_pos htc]
      rw [JVal.getField_setField_ne _ _ _ _ h2]
      exact getField_addrFix_ne c r ci o s k2 h1
    · rw [if_neg htc]
      exact getField_addrFix_ne c r ci o s k2 h1
  · rw [if_neg hT]

theorem isObj_bizStage (c r ci : String) (o : AiOrgInfo) (p : PageData)
    (s : JVal) : (bizStage c r ci o p s).isObj = s.isObj := by
  unfold bizStage
  by_cases hT : (typeIs s "HVACBusiness"
      || typeIs s "LocalBusiness") = true
  · rw [if_pos hT]
    try dsimp only []
    by_cases htc : (!((addrFix c r ci o s).getD "telephone").truthy
        && (o.phone != "" || p.phone != "")) = true
    · rw [if_pos htc]
      rw [JVal.isObj_setField]
      exact isObj_addrFix c r ci o s
    · rw [if_neg htc]
      exact isObj_addrFix c r ci o s
  · rw [if_neg hT]

theorem truthy_bizStage (c r ci : String) (o : AiOrgInfo) (p : PageData)
    (s : JVal) : (bizStage c r ci o p s).truthy = s.truthy := by
  unfold bizStage
  by_cases hT : (typeIs s "HVACBusiness"
      || typeIs s "LocalBusiness") = true
  · rw [if_pos hT]
    try dsimp only []
    by_cases htc : (!((addrFix c r ci o s).getD "telephone").truthy
        && (o.phone != "" || p.phone != "")) = true
    · rw [if_pos htc]
      rw [JVal.truthy_setField]
      exact truthy_addrFix c r ci o s
    · rw [if_neg htc]
      exact truthy_addrFix c r ci o s
  · rw [if_neg hT]

theorem bizStage_stable (c r ci : String) (o : AiOrgInfo) (p : PageData)
    (s s' : JVal)
    (hobj : s'.isObj = s.isObj)
    (ht : s'.getField "@type" = s.getField "@type")
    (ha : s'.getField "address" = (bizStage c r ci o p s).getField "address")
    (htl : s'.getField "telephone" = (bizStage c r ci o p s).getField "telephone") :
    bizStage c r ci o p s' = s' := by
  by_cases hso : s.isObj = true
  case neg =>
    have hso' : s'.isObj = false := by
      rw [hobj]; revert hso; cases s.isObj <;> simp
    exact bizStage_nonobj c r ci o p s' hso'
  case pos =>
  by_cases hT : (typeIs s "HVACBusiness"
      || typeIs s "LocalBusiness") = true
  · have hT' : (typeIs s' "HVACBusiness"
        || typeIs s' "LocalBusiness") = true := by
      rw [typeIs_congr "HVACBusiness" s s' ht, typeIs_congr "LocalBusiness" s s' ht]
      exact hT
    unfold bizStage at ha htl ⊢
    rw [if_pos hT] at ha htl
    rw [if_pos hT']
    try dsimp only [] at ha htl ⊢
    by_cases htc : (!((addrFix c r ci o s).getD "telephone").truthy
        && (o.phone != "" || p.phone != "")) = true
    · rw [if_pos htc] at ha htl
      have hu1obj : (addrFix c r ci o s).isObj = true := by
        rw [isObj_addrFix]; exact hso
      obtain ⟨us, hus⟩ := JVal.eq_obj_of_isObj _ hu1obj
      rw [JVal.getField_setField_ne _ _ _ _ (by decide)] at ha
      rw [hus, JVal.getField_setField_self] at htl
      have hfix : addrFix c r ci o s' = s' := addrFix_stable c r ci o s s' hobj ha
      rw [hfix]
      have hgd : s'.getD "telephone" =
          JVal.s (if o.phone != "" then o.phone else p.phone) :=
        JVal.getD_of_getField _ _ _ htl
      have hne : (if o.phone != "" then o.phone else p.phone) ≠ "" := by
        have hph := ((Bool.and_eq_true _ _).mp htc).2
        by_cases hop : (o.phone != "") = true
        · rw [if_pos hop]; simpa using hop
        · rw [if_neg hop]
          have hpp : (p.phone != "") = true := by
            rcases (Bool.or_eq_true _ _).mp hph with hx | hx
            · exact absurd hx hop
            · exact hx
          simpa using hpp
      have htt : (JVal.s (if o.phone != "" then o.phone else p.phone)).truthy = true := by
        rw [show (JVal.s (if o.phone != "" then o.phone else p.phone)).truthy =
          decide ((if o.phone != "" then o.phone else p.phone) ≠ "") from rfl]
        rw [decide_eq_true_eq]
        exact hne
      rw [if_neg (by rw [hgd, htt]; simp)]
    · rw [if_neg htc] at ha htl
      have hfix : addrFix c r ci o s' = s' := addrFix_stable c r ci o s s' hobj ha
      rw [hfix]
      have hgd : s'.getD "telephone" = (addrFix c r ci o s).getD "telephone" := by
        unfold JVal.getD; rw [htl]
      rw [if_neg (by rw [hgd]; exact htc)]
  · unfold bizStage
    rw [if_neg (by
      rw [typeIs_congr "HVACBusiness" s s' ht, typeIs_congr "LocalBusiness" s s' ht]
      exact hT)]

theorem bizStage_idem (c r ci : String) (o : AiOrgInfo) (p : PageData)
    (s : JVal) :
    bizStage c r ci o p (bizStage c r ci o p s) = bizStage c r ci o p s :=
  bizStage_stable c r ci o p s (bizStage c r ci o p s)
    (isObj_bizStage c r ci o p s)
    (getField_bizStage_ne c r ci o p s "@type" (by decide) (by decide))
    rfl rfl

theorem truthy_refStageNoType (k : String) (s : JVal) :
    (refStageNoType k s).truthy = s.truthy := by
  unfold refStageNoType
  by_cases hg : ((s.getD k).truthy && ((s.getD k).getD "@id").truthy) = true
  · rw [if_pos hg]
    exact JVal.truthy_setField s k _
  · rw [if_neg hg]

theorem truthy_refStage (t k : String) (s : JVal) :
    (refStage t k s).truthy = s.truthy := by
  unfold refStage
  by_cases hg : ((typeIs s t) && (s.getD k).truthy
      && ((s.getD k).getD "@id").truthy) = true
  · rw [if_pos hg]
    exact JVal.truthy_setField s k _
  · rw [if_neg hg]

theorem truthy_webStage (s : JVal) : (webStage s).truthy = s.truthy := by
  unfold webStage
  by_cases ht : (typeIs s "WebPage") = true
  · rw [if_pos ht, truthy_refStageNoType, truthy_refStageNoType]
  · rw [if_neg ht]

theorem truthy_ensureSchema (c r ci : String) (o : AiOrgInfo) (p : PageData)
    (schema : JVal) : (ensureSchema c r ci o p schema).truthy = schema.truthy := by
  unfold ensureSchema
  rw [truthy_bizStage, truthy_refStage, truthy_webStage, truthy_refStage,
    truthy_refStage]

theorem ensureSchema_stables (c r ci : String) (o : AiOrgInfo) (p : PageData)
    (schema : JVal) :
    stageStable "Service" "provider" (ensureSchema c r ci o p schema) ∧
    stageStable "Article" "publisher" (ensureSchema c r ci o p schema) ∧
    webStable (ensureSchema c r ci o p schema) ∧
    stageStable "FAQPage" "isPartOf" (ensureSchema c r ci o p schema) := by
  refine ⟨?_, ?_, ?_, ?_⟩
  · exact stageStable_congr "Service" "provider"
      (refStage "Service" "provider" schema) (ensureSchema c r ci o p schema)
      (by
        unfold ensureSchema
        rw [getField_bizStage_ne _ _ _ _ _ _ _ (by decide) (by decide),
          getField_refStage_ne _ _ _ _ (by decide),
          getField_webStage_ne _ _ (by decide) (by decide),
          getField_refStage_ne _ _ _ _ (by decide)])
      (by
        unfold ensureSchema
        rw [getField_bizStage_ne _ _ _ _ _ _ _ (by decide) (by decide),
          getField_refStage_ne _ _ _ _ (by decide),
          getField_webStage_ne _ _ (by decide) (by decide),
          getField_refStage_ne _ _ _ _ (by decide)])
      (stageStable_refStage "Service" "provider" schema)
  · exact stageStable_congr "Article" "publisher"
      (refStage "Article" "publisher" (refStage "Service" "provider" schema))
      (ensureSchema c r ci o p schema)
      (by
        unfold ensureSchema
        rw [getField_bizStage_ne _ _ _ _ _ _ _ (by decide) (by decide),
          getField_refStage_ne _ _ _ _ (by decide),
          getField_webStage_ne _ _ (by decide) (by decide)])
      (by
        unfold ensureSchema
        rw [getField_bizStage_ne _ _ _ _ _ _ _ (by decide) (by decide),
          getField_refStage_ne _ _ _ _ (by decide),
          getField_webStage_ne _ _ (by decide) (by decide)])
      (stageStable_refStage "Article" "publisher" _)
  · exact webStable_congr
      (refStage "FAQPage" "isPartOf"
        (webStage (refStage "Article" "publisher"
          (refStage "Service" "provider" schema))))
      (ensureSchema c r ci o p schema)
      (by
        unfold ensureSchema
        rw [getField_bizStage_ne _ _ _ _ _ _ _ (by decide) (by decide)])
      (by
        unfold ensureSchema
        rw [getField_bizStage_ne _ _ _ _ _ _ _ (by decide) (by decide)])
      (by
        unfold ensureSchema
        rw [getField_bizStage_ne _ _ _ _ _ _ _ (by decide) (by decide)])
      (webStable_refStage_isPartOf "FAQPage" _
        (webStable_webStage (refStage "Article" "publisher"
          (refStage "Service" "provider" schema))))
  · exact stageStable_congr "FAQPage" "isPartOf"
      (refStage "FAQPage" "isPartOf"
        (webStage (refStage "Article" "publisher"
          (refStage "Service" "provider" schema))))
      (ensureSchema c r ci o p schema)
      (by
        unfold ensureSchema
        rw [getField_bizStage_ne _ _ _ _ _ _ _ (by decide) (by decide)])
      (by
        unfold ensureSchema
        rw [getField_bizStage_ne _ _ _ _ _ _ _ (by decide) (by decide)])
      (stageStable_refStage "FAQPage" "isPartOf" _)

theorem ensureSchema_idem (c r ci : String) (o : AiOrgInfo) (p : PageData)
    (schema : JVal) :
    ensureSchema c r ci o p (ensureSchema c r ci o p schema) =
      ensureSchema c r ci o p schema := by
  obtain ⟨h1, h2, h3, h4⟩ := ensureSchema_stables c r ci o p schema
  have e1 : refStage "Service" "provider" (ensureSchema c r ci o p schema) =
      ensureSchema c r ci o p schema := refStage_of_stageStable _ _ _ h1
  have e2 : refStage "Article" "publisher" (ensureSchema c r ci o p schema) =
      ensureSchema c r ci o p schema := refStage_of_stageStable _ _ _ h2
  have e3 : webStage (ensureSchema c r ci o p schema) =
      ensureSchema c r ci o p schema := webStage_of_webStable _ h3
  have e4 : refStage "FAQPage" "isPartOf" (ensureSchema c r ci o p schema) =
      ensureSchema c r ci o p schema := refStage_of_stageStable _ _ _ h4
  show bizStage c r ci o p
      (refStage "FAQPage" "isPartOf"
        (webStage (refStage "Article" "publisher"
          (refStage "Service" "provider" (ensureSchema c r ci o p schema))))) =
    ensureSchema c r ci o p schema
  rw [e1, e2, e3, e4]
  exact bizStage_idem c r ci o p
    (refStage "FAQPage" "isPartOf"
      (webStage (refStage "Article" "publisher"
        (refStage "Service" "provider" schema))))

theorem ensureProviderItem_idem (c r ci : String) (o : AiOrgInfo) (p : PageData)
    (item : SchemaItem) :
    ensureProviderItem c r ci o p (ensureProviderItem c r ci o p item) =
      ensureProviderItem c r ci o p item := by
  unfold ensureProviderItem
  by_cases hts : (!item.schema.truthy) = true
  · rw [if_pos hts, if_pos hts]
  · have hts' : item.schema.truthy = true := by
      revert hts; cases item.schema.truthy <;> simp
    rw [if_neg hts]
    try dsimp only []
    have htF : (!(ensureSchema c r ci o p item.schema).truthy) = false := by
      rw [truthy_ensureSchema, hts']
      rfl
    rw [if_neg (by simp [htF])]
    rw [ensureSchema_idem]

/-- C10: the post-processing invariant-repair pass over untrusted
schemas -- pure-reference enforcement plus business address and
telephone completion -- is idempotent: for every schema list, orgInfo
and pageData, applying ensureProviderAddresses to its own output yields
the same schemas as applying it once. -/
theorem ensureProviderAddresses_idempotent (schemas : List SchemaItem)
    (orgInfo : AiOrgInfo) (pageData : PageData) :
    ensureProviderAddresses (ensureProviderAddresses schemas orgInfo pageData)
        orgInfo pageData =
      ensureProviderAddresses schemas orgInfo pageData := by
  unfold ensureProviderAddresses
  try dsimp only []
  rw [List.map_map]
  exact List.map_congr_left (fun item _ => ensureProviderItem_idem _ _ _ _ _ item)

/-- C3 (amended): after the post-processing pass, reference purity holds
on every item of the output list: whenever a Service carries a truthy
provider with a truthy identity, that provider is exactly the one-key
identity object, and likewise for Article.publisher, WebPage.isPartOf
and about, and FAQPage.isPartOf.  The claim's universal form is refuted
separately on the template-builder path. -/
theorem ensureProviderAddresses_pure_refs (schemas : List SchemaItem)
    (orgInfo : AiOrgInfo) (pageData : PageData) :
    ∀ item ∈ ensureProviderAddresses schemas orgInfo pageData,
      stageStable "Service" "provider" item.schema ∧
      stageStable "Article" "publisher" item.schema ∧
      webStable item.schema ∧
      stageStable "FAQPage" "isPartOf" item.schema := by
  intro item hmem
  unfold ensureProviderAddresses at hmem
  try dsimp only [] at hmem
  rw [List.mem_map] at hmem
  obtain ⟨x, hx, rfl⟩ := hmem
  unfold ensureProviderItem
  by_cases hts : (!x.schema.truthy) = true
  · rw [if_pos hts]
    have hts' : x.schema.truthy = false := by
      revert hts; cases x.schema.truthy <;> simp
    have hno : x.schema.getField "@type" = none := by
      cases hsch : x.schema with
      | obj fs => rw [hsch] at hts'; exact absurd hts' (by simp [JVal.truthy])
      | arr xs => rw [hsch] at hts'; exact absurd hts' (by simp [JVal.truthy])
      | s v => rfl
      | i v => rfl
      | b v => rfl
      | null => rfl
    refine ⟨?_, ?_, ?_, ?_⟩ <;> intro htype <;>
      rw [typeIs_none _ _ hno] at htype <;> exact absurd htype (by decide)
  · rw [if_neg hts]
    try dsimp only []
    exact ensureSchema_stables _ _ _ _ _ _

/-- Concrete polluted AI output: a Service whose provider carries a
name and telephone alongside its identity. -/
def aiPollutedItem : SchemaItem :=
  ⟨"service", JVal.obj
    [("@type", JVal.s "Service"),
     ("provider", JVal.obj
       [("@id", JVal.s "https://a.com#localbusiness"),
        ("name", JVal.s "Acme"),
        ("telephone", JVal.s "555-0100")])]⟩

/-- The post-processing output on the concrete polluted item. -/
def aiPollutedOut : SchemaItem :=
  (ensureProviderAddresses [aiPollutedItem]
    { areaServed := "Hamilton, ON" } {}).headD aiPollutedItem

theorem ensureProviderAddresses_pure_refs_witness :
    aiPollutedOut ∈ ensureProviderAddresses [aiPollutedItem]
        { areaServed := "Hamilton, ON" } {} ∧
      refStable "provider" aiPollutedOut.schema := by
  have hmem : aiPollutedOut ∈ ensureProviderAddresses [aiPollutedItem]
      { areaServed := "Hamilton, ON" } {} := by
    have he : ensureProviderAddresses [aiPollutedItem]
        { areaServed := "Hamilton, ON" } {} = [aiPollutedOut] := rfl
    rw [he]
    exact List.mem_singleton.mpr rfl
  exact ⟨hmem, (ensureProviderAddresses_pure_refs [aiPollutedItem]
    { areaServed := "Hamilton, ON" } {} aiPollutedOut hmem).1 (by decide)⟩

/-- Modelled from the spec: the graph composer (src/services/schemaGenerator.js,
referenced by the test suite but absent from src/) dispatches on the
detected page type and, for a service page, assembles the Service
builder output together with the LocalBusiness builder output into one
graph (spec 4.4: service pages get service + business).  Only the pair
of entities relevant to reference purity is modelled. -/
def composeServicePage (pageData : PageData) (orgInfo : OrgInfo)
    (svcOptions : Svc.ServiceOptions) (lbOptions : LB.LBOptions) :
    Svc.ServiceSchema × LB.LBSchema :=
  (Svc.generate pageData orgInfo svcOptions, LB.generate orgInfo lbOptions)

/-- C3 counterexample: in the composed service-page graph the Service
entity's provider carries name, url and telephone alongside the same
identity string that the standalone LocalBusiness entity of the graph
owns, so it is not a pure one-key reference object. -/
theorem composed_service_graph_provider_not_pure :
    ((composeServicePage { url := "https://a.com/p", phone := "555-0100" }
        { name := "Acme", url := "https://a.com" } {} {}).1.provider.atId =
      (composeServicePage { url := "https://a.com/p", phone := "555-0100" }
        { name := "Acme", url := "https://a.com" } {} {}).2.atId) ∧
    (composeServicePage { url := "https://a.com/p", phone := "555-0100" }
        { name := "Acme", url := "https://a.com" } {} {}).1.provider.name =
      "Acme" ∧
    (composeServicePage { url := "https://a.com/p", phone := "555-0100" }
        { name := "Acme", url := "https://a.com" } {} {}).1.provider.url =
      "https://a.com" ∧
    (composeServicePage { url := "https://a.com/p", phone := "555-0100" }
        { name := "Acme", url := "https://a.com" } {} {}).1.provider.telephone =
      "555-0100" := by
  decide
